import Mathlib

/- Shallow embedding of the gas-absorption lookup table of
   src/src/gas_abs_lookup.cc (find_new_grid_in_old_grid,
   GasAbsLookup::Adapt, GasAbsLookup::Extract).

   Modelling conventions:
   * ARTS Numeric is modelled by the rationals.
   * ARTS Index is modelled by Nat where the source guarantees
     non-negativity and by Int where a negative value is meaningful
     (f_index, h2o_index).
   * Species tag groups are modelled by natural-number identifiers with
     decidable equality; the designated water-vapour tag is the constant
     H2O below.
   * Vector / Matrix / Tensor4 are modelled by (nested) lists; the
     rectangularity that ARTS containers have by construction is part of
     the explicit size checks, exactly where the source checks sizes.
   * The natural logarithm used for the log-pressure cache is
     transcendental, so the embedding is parameterised by the function
     lg standing for log; the theorems assume of it only what the
     source uses (strict monotonicity).
   * Helper routines that gas_abs_lookup.cc calls but whose sources are
     not part of this repository snapshot (check_input.cc, logic.cc,
     interpolation_poly.cc, physics_funcs.cc) are modelled from the
     spec; each such definition carries a doc comment saying so.  -/

deriving instance DecidableEq for Except

/-- Failure causes of Adapt and Extract.  Each constructor corresponds to
one (or one family of) runtime_error throw sites in gas_abs_lookup.cc,
named as in the spec. -/
inductive Err where
  | NoSpecies
  | DuplicateNonlinearSpecies
  | NonlinearSpeciesOutOfRange
  | GridNotIncreasing
  | GridNotDecreasing
  | DimensionMismatch
  | ShapeMismatch
  | EmptyRequest
  | SpeciesNotFound
  | SpeciesNotUnique
  | GridPointNotFound
  | NoHumidityReferenceSpecies
  | TableNotAdapted
  | InsufficientGridForOrder
  | IndexOutOfRange
  | PressureOutOfRange
  | TemperatureOutOfRange
  | HumidityOutOfRange
  deriving DecidableEq, Repr

/-- The TableStore: fields of class GasAbsLookup (see the member accesses
in gas_abs_lookup.cc).  xsec axes are (perturbation, expanded species,
frequency, pressure), i.e. (books, pages, rows, cols). -/
structure GasAbsLookup where
  species : List Nat
  nonlinear_species : List Nat
  f_grid : List ℚ
  p_grid : List ℚ
  vmrs_ref : List (List ℚ)
  t_ref : List ℚ
  t_pert : List ℚ
  nls_pert : List ℚ
  xsec : List (List (List (List ℚ)))
  log_p_grid : List ℚ := []
  deriving DecidableEq, Repr

/-- Modelled from the spec: chk_if_increasing of check_input.cc is not in
src/; the spec requires the grid to be strictly increasing. -/
def is_increasing (v : List ℚ) : Bool :=
  decide (List.Chain' (fun a b => a < b) v)

/-- Modelled from the spec: chk_if_decreasing of check_input.cc is not in
src/; the spec requires the grid to be strictly decreasing. -/
def is_decreasing (v : List ℚ) : Bool :=
  decide (List.Chain' (fun a b => a > b) v)

/-- Modelled from the spec: chk_contains of check_input.cc is not in
src/.  Per the comment at gas_abs_lookup.cc:320 it throws unless the
element occurs exactly once, and returns the index of the sole
occurrence; the spec names the zero-occurrence failure SpeciesNotFound. -/
def chk_contains (l : List Nat) (s : Nat) : Except Err Nat :=
  if l.count s = 0 then .error .SpeciesNotFound
  else if l.count s = 1 then .ok (l.indexOf s)
  else .error .SpeciesNotUnique

/-- Step 1 of Adapt (gas_abs_lookup.cc:315-326): locate every requested
species in the table, failing at the first one not found exactly once. -/
def lookup_species (tbl : List Nat) : List Nat → Except Err (List Nat)
  | [] => .ok []
  | s :: rest =>
    match chk_contains tbl s with
    | .error e => .error e
    | .ok k =>
      match lookup_species tbl rest with
      | .error e => .error e
      | .ok ks => .ok (k :: ks)

/-- Inner while loop of find_new_grid_in_old_grid (gas_abs_lookup.cc:74-84):
scan the old grid from position j onwards for the first entry within
tolerance 1 of x; the list argument is the suffix of the old grid
starting at j.  Exhausting the old grid is the GridPointNotFound failure. -/
def scanFrom (x : ℚ) (j : Nat) : List ℚ → Except Err Nat
  | [] => .error .GridPointNotFound
  | g :: rest => if |x - g| ≤ 1 then .ok j else scanFrom x (j + 1) rest

/-- Outer loop of find_new_grid_in_old_grid (gas_abs_lookup.cc:68-88): the
old-grid cursor j persists across new-grid entries. -/
def find_go (old : List ℚ) (j : Nat) : List ℚ → Except Err (List Nat)
  | [] => .ok []
  | x :: rest =>
    match scanFrom x j (old.drop j) with
    | .error e => .error e
    | .ok k =>
      match find_go old k rest with
      | .error e => .error e
      | .ok ks => .ok (k :: ks)

/-- find_new_grid_in_old_grid (gas_abs_lookup.cc:47-89): positions of the
new grid points in the old grid, within a fixed tolerance of 1. -/
def find_new_grid_in_old_grid (old_grid new_grid : List ℚ) : Except Err (List Nat) :=
  find_go old_grid 0 new_grid

/-- Per-species slice sizes in the expanded-species axis of xsec: a
nonlinear species occupies n_nls_pert consecutive pages, an ordinary one
a single page (gas_abs_lookup.cc:289-294). -/
def spec_sizes (non_linear : List Bool) (n_nls_pert : Nat) : List Nat :=
  non_linear.map (fun b => if b then n_nls_pert else 1)

/-- Offsets obtained by the running sum of a list of sizes (the variable
sp in gas_abs_lookup.cc:289-294 and fpi in gas_abs_lookup.cc:884-1028). -/
def xsec_offsets : List Nat → List Nat
  | [] => []
  | n :: rest => 0 :: (xsec_offsets rest).map (fun m => m + n)

/-- original_spec_pos_in_xsec (gas_abs_lookup.cc:288-294): starting page
of each species inside the expanded-species axis of xsec. -/
def spec_pos_in_xsec (non_linear : List Bool) (n_nls_pert : Nat) : List Nat :=
  xsec_offsets (spec_sizes non_linear n_nls_pert)

/-- Size check of a 4-dimensional nested list against the four axis
lengths, as chk_size does for a Tensor4 (rectangularity is a container
invariant in ARTS, hence part of the size here). -/
def tensor4_size (x : List (List (List (List ℚ)))) (a b c d : Nat) : Bool :=
  (x.length == a) && x.all (fun bk =>
    (bk.length == b) && bk.all (fun pg =>
      (pg.length == c) && pg.all (fun r => r.length == d)))

/-- The three-case xsec shape check of Adapt (gas_abs_lookup.cc:230-283).
In the third case the source computes the expanded-species axis
b = n_species + n_nls * (n_nls_pert - 1) in signed arithmetic, and the
first axis is t_pert.nelem() even when that is zero. -/
def chk_xsec_size (t : GasAbsLookup) : Bool :=
  if t.nonlinear_species.length = 0 then
    if t.t_pert.length = 0 then
      tensor4_size t.xsec 1 t.species.length t.f_grid.length t.p_grid.length
    else
      tensor4_size t.xsec t.t_pert.length t.species.length t.f_grid.length t.p_grid.length
  else
    let b : Int := (t.species.length : Int) +
      (t.nonlinear_species.length : Int) * ((t.nls_pert.length : Int) - 1)
    (0 ≤ b) &&
      tensor4_size t.xsec t.t_pert.length b.toNat t.f_grid.length t.p_grid.length

/-- Logical array non_linear of Adapt (gas_abs_lookup.cc:148-152) and of
Extract (gas_abs_lookup.cc:689-693): flags the nonlinear species of the
table. -/
def adapt_non_linear (t : GasAbsLookup) : List Bool :=
  (List.range t.species.length).map (fun i => t.nonlinear_species.contains i)

/-- Flags current_non_linear of Adapt (gas_abs_lookup.cc:328-346): which
requested species are nonlinear in the original table. -/
def adapt_current_non_linear (t : GasAbsLookup) (ics : List Nat) : List Bool :=
  ics.map (fun k => (adapt_non_linear t).getD k false)

/-- The new nonlinear_species list built at gas_abs_lookup.cc:376-378:
the positions of the nonlinear requested species, pushed in order. -/
def adapt_new_nonlinear (t : GasAbsLookup) (ics : List Nat) : List Nat :=
  (List.range ics.length).filter
    (fun i => (adapt_current_non_linear t ics).getD i false)

/-- Source pages copied by the xsec loop of Adapt
(gas_abs_lookup.cc:430-463): for each requested species in order, its
n_v consecutive pages starting at original_spec_pos_in_xsec of its old
index (n_v = n_nls_pert for nonlinear species, else 1); destinations are
consecutive, i.e. the concatenation of the blocks. -/
def adapt_page_idx (t : GasAbsLookup) (ics : List Nat) : List Nat :=
  ((List.range ics.length).map (fun i =>
    List.range' ((spec_pos_in_xsec (adapt_non_linear t) t.nls_pert.length).getD
        (ics.getD i 0) 0)
      (if (adapt_current_non_linear t ics).getD i false then t.nls_pert.length
       else 1))).flatten

/-- Construction of the new table (gas_abs_lookup.cc:370-473) from the
located species indices ics and frequency positions ifg; the last step
recomputes the log-pressure cache (lines 470-473). -/
def adapt_build (lg : ℚ → ℚ) (t : GasAbsLookup) (ics ifg : List Nat) : GasAbsLookup :=
  { species := ics.map (fun k => t.species.getD k 0)
    nonlinear_species := adapt_new_nonlinear t ics
    f_grid := ifg.map (fun k => t.f_grid.getD k 0)
    p_grid := t.p_grid
    vmrs_ref := ics.map (fun k => t.vmrs_ref.getD k [])
    t_ref := t.t_ref
    t_pert := t.t_pert
    nls_pert := if (adapt_new_nonlinear t ics).length ≠ 0 then t.nls_pert else []
    xsec := t.xsec.map (fun book => (adapt_page_idx t ics).map (fun pidx =>
      ifg.map (fun fi => (book.getD pidx []).getD fi [])))
    log_p_grid := t.p_grid.map lg }

/-- Steps 1-5 of Adapt after all input checks have passed
(gas_abs_lookup.cc:312-473). -/
def adapt_core (lg : ℚ → ℚ) (t : GasAbsLookup) (current_species : List Nat)
    (current_f_grid : List ℚ) : Except Err GasAbsLookup :=
  match lookup_species t.species current_species with
  | .error e => .error e
  | .ok ics =>
    match find_new_grid_in_old_grid t.f_grid current_f_grid with
    | .error e => .error e
    | .ok ifg => .ok (adapt_build lg t ics ifg)

/-- GasAbsLookup::Adapt (gas_abs_lookup.cc:120-474): validate the table
and the request in source order, then build the reduced table.  lg
stands for the natural logarithm used for the log-pressure cache. -/
def Adapt (lg : ℚ → ℚ) (t : GasAbsLookup) (current_species : List Nat)
    (current_f_grid : List ℚ) : Except Err GasAbsLookup :=
  if t.species.length = 0 then .error .NoSpecies
  else if ¬ t.nonlinear_species.Nodup then .error .DuplicateNonlinearSpecies
  else if ¬ t.nonlinear_species.all (fun i => i + 1 ≤ t.species.length) then
    .error .NonlinearSpeciesOutOfRange
  else if ¬ is_increasing t.f_grid then .error .GridNotIncreasing
  else if ¬ is_decreasing t.p_grid then .error .GridNotDecreasing
  else if ¬ (t.vmrs_ref.length = t.species.length ∧
      t.vmrs_ref.all (fun r => r.length = t.p_grid.length)) then
    .error .DimensionMismatch
  else if ¬ t.t_ref.length = t.p_grid.length then .error .DimensionMismatch
  else if t.nonlinear_species.length = 0 ∧ ¬ t.nls_pert.length = 0 then
    .error .DimensionMismatch
  else if ¬ t.nonlinear_species.length = 0 ∧ t.nls_pert.length = 0 then
    .error .DimensionMismatch
  else if ¬ chk_xsec_size t then .error .ShapeMismatch
  else if current_species.length = 0 then .error .EmptyRequest
  else if ¬ is_increasing current_f_grid then .error .GridNotIncreasing
  else adapt_core lg t current_species current_f_grid

/-- Effect of the imperative method GasAbsLookup::Adapt on *this*: every
throw in the body happens before the single assignment at
gas_abs_lookup.cc:467, so a failing call leaves the object with its
pre-call value, and a successful call replaces it wholesale by the new
table (whose log-pressure cache is then rebuilt, lines 470-473, before
control returns). -/
def AdaptMethod (lg : ℚ → ℚ) (t : GasAbsLookup) (current_species : List Nat)
    (current_f_grid : List ℚ) : GasAbsLookup × Option Err :=
  match Adapt lg t current_species current_f_grid with
  | .ok t' => (t', none)
  | .error e => (t, some e)

/-- Modelled from the spec: the species identifier conventionally naming
water vapour (species_index_from_species_name of species_info.cc is not
in src/). -/
def H2O : Nat := 0

/-- Modelled from the spec: find_first_species_tg (abs_species_tags.cc,
not in src/) returns the position of the first species group matching
the given species, or -1 when there is none. -/
def find_first_species_tg (l : List Nat) (s : Nat) : Int :=
  match l.findIdx? (fun x => x = s) with
  | some i => (i : Int)
  | none => -1

/-- Modelled from the spec: number_density of physics_funcs.cc is not in
src/; per the comment at gas_abs_lookup.cc:698 it follows the ideal gas
law n = p / (kB * T). -/
def BOLTZMANN_CONST : ℚ := 1380662 / 10 ^ 29

/-- Modelled from the spec: ideal-gas number density, proportional to
p / T. -/
def number_density (p T : ℚ) : ℚ := p / (BOLTZMANN_CONST * T)

/-- Index of a grid point nearest to x (first one in case of ties). -/
def nearestIdx (grid : List ℚ) (x : ℚ) : Nat :=
  (List.range grid.length).foldl
    (fun best j => if |x - grid.getD j 0| < |x - grid.getD best 0| then j else best) 0

/-- Modelled from the spec: gridpos_poly of interpolation_poly.cc is not
in src/.  Local polynomial interpolation of the stated order uses the
order+1 consecutive grid points around the interpolation point (clamped
into the grid); per the spec it is exact at grid nodes for order 0. -/
def gridpos_poly (grid : List ℚ) (x : ℚ) (order : Nat) : List Nat :=
  List.range' (min (nearestIdx grid x) (grid.length - (order + 1))) (order + 1)

/-- Modelled from the spec: the Lagrange basis weight of point r among
the selected points idx, as interpweights of interpolation_poly.cc (not
in src/) computes for a 1D grid position. -/
def lagrangeWeight (grid : List ℚ) (x : ℚ) (idx : List Nat) (r : Nat) : ℚ :=
  ((idx.filter (fun s => s ≠ r)).map
    (fun s => (x - grid.getD s 0) / (grid.getD r 0 - grid.getD s 0))).prod

/-- Modelled from the spec: interpweights of interpolation_poly.cc (not
in src/), 1D case; 2D weights are the products of the 1D weights (the
spec's tensor product of weights). -/
def interpweights (grid : List ℚ) (x : ℚ) (idx : List Nat) : List ℚ :=
  idx.map (lagrangeWeight grid x idx)

/-- Pressure range check of Extract (gas_abs_lookup.cc:705-721): p must
lie between the first and last pressure grid values extended by half the
adjacent grid spacing on each side, compared in plain (linear) pressure. -/
def pressure_range_ok (p_grid : List ℚ) (p : ℚ) : Bool :=
  let n := p_grid.length
  let p_max := p_grid.getD 0 0 + (1 / 2) * (p_grid.getD 0 0 - p_grid.getD 1 0)
  let p_min := p_grid.getD (n - 1) 0 - (1 / 2) * (p_grid.getD (n - 2) 0 - p_grid.getD (n - 1) 0)
  ¬ (p > p_max ∨ p < p_min)

/-- Temperature-offset range check of Extract (gas_abs_lookup.cc:798-816):
the offset must lie in the span of t_pert extended by half the adjacent
spacing on each side. -/
def t_range_ok (t_pert : List ℚ) (x : ℚ) : Bool :=
  let n := t_pert.length
  let t_min := t_pert.getD 0 0 - (1 / 2) * (t_pert.getD 1 0 - t_pert.getD 0 0)
  let t_max := t_pert.getD (n - 1) 0 + (1 / 2) * (t_pert.getD (n - 1) 0 - t_pert.getD (n - 2) 0)
  ¬ (x > t_max ∨ x < t_min)

/-- Fractional-VMR range check of Extract (gas_abs_lookup.cc:853-877):
same half-bin extension applied to nls_pert. -/
def nls_range_ok (nls_pert : List ℚ) (x : ℚ) : Bool :=
  let n := nls_pert.length
  let x_min := nls_pert.getD 0 0 - (1 / 2) * (nls_pert.getD 1 0 - nls_pert.getD 0 0)
  let x_max := nls_pert.getD (n - 1) 0 + (1 / 2) * (nls_pert.getD (n - 1) 0 - nls_pert.getD (n - 2) 0)
  ¬ (x > x_max ∨ x < x_min)

/-- Grid indices (as signed integers) read by the pressure range check at
gas_abs_lookup.cc:706-707: p_grid[0], p_grid[1], p_grid[n_p_grid-1]
and p_grid[n_p_grid-2]. -/
def pressure_check_reads (n_p_grid : Nat) : List Int :=
  [0, 1, (n_p_grid : Int) - 1, (n_p_grid : Int) - 2]

/-- Grid indices read by the temperature range check at
gas_abs_lookup.cc:799-800: t_pert[0], t_pert[1], t_pert[n_t_pert-1] and
t_pert[n_t_pert-2]. -/
def t_check_reads (n_t_pert : Nat) : List Int :=
  [0, 1, (n_t_pert : Int) - 1, (n_t_pert : Int) - 2]

/-- Grid indices read by the humidity range check at
gas_abs_lookup.cc:855-857: nls_pert[0], nls_pert[1],
nls_pert[n_nls_pert-1] and nls_pert[n_nls_pert-2]. -/
def nls_check_reads (n_nls_pert : Nat) : List Int :=
  [0, 1, (n_nls_pert : Int) - 1, (n_nls_pert : Int) - 2]

/-- An index is a valid position of a grid of the given length. -/
def idx_in_bounds (n : Nat) (i : Int) : Bool := 0 ≤ i ∧ i < (n : Int)

/-- Pressure interpolation-order precondition of Extract
(gas_abs_lookup.cc:616-623). -/
def p_order_ok (n_p_grid p_interp_order : Nat) : Bool :=
  p_interp_order + 1 ≤ n_p_grid

/-- Perturbation-axis interpolation-order precondition of Extract
(gas_abs_lookup.cc:625-641): trivially satisfied when the axis is
absent. -/
def pert_order_ok (n_pert order : Nat) : Bool :=
  n_pert == 0 || order + 1 ≤ n_pert

/-- Element access x(b, pg, r, c) of the 4D coefficient array. -/
def x4 (x : List (List (List (List ℚ)))) (b pg r c : Nat) : ℚ :=
  (((x.getD b []).getD pg []).getD r []).getD c 0

/-- One interpolated value at a fixed pressure level, species and
frequency: the four cases of gas_abs_lookup.cc:903-1020 (temperature
and/or humidity interpolation, or a direct copy). -/
def interp_res (xsec : List (List (List (List ℚ)))) (do_T do_VMR : Bool)
    (tgp vgp : List Nat) (titw hitw : List ℚ) (t_interp_order h2o_interp_order : Nat)
    (fpi f_start this_p f : Nat) : ℚ :=
  if do_T then
    if do_VMR then
      ((List.range (t_interp_order + 1)).map (fun r =>
        ((List.range (h2o_interp_order + 1)).map (fun c =>
          titw.getD r 0 * hitw.getD c 0 *
            x4 xsec (tgp.getD r 0) (fpi + vgp.getD c 0) (f_start + f) this_p)).sum)).sum
    else
      ((List.range (t_interp_order + 1)).map (fun r =>
        titw.getD r 0 * x4 xsec (tgp.getD r 0) fpi (f_start + f) this_p)).sum
  else
    if do_VMR then
      ((List.range (h2o_interp_order + 1)).map (fun c =>
        hitw.getD c 0 * x4 xsec 0 (fpi + vgp.getD c 0) (f_start + f) this_p)).sum
    else x4 xsec 0 fpi (f_start + f) this_p

/-- Range-check failure of one pressure level of the Extract loop
(gas_abs_lookup.cc:797-816 and 852-877): the temperature offset check
precedes the humidity check; both anchor at the non-interpolated
reference value of that level. -/
def level_error (t : GasAbsLookup) (h2o_index : Int) (T : ℚ) (abs_vmrs : List ℚ)
    (this_p : Nat) : Option Err :=
  if t.t_pert.length ≠ 0 ∧ ¬ t_range_ok t.t_pert (T - t.t_ref.getD this_p 0) then
    some .TemperatureOutOfRange
  else if t.nonlinear_species.length ≠ 0 ∧
      ¬ nls_range_ok t.nls_pert
        (abs_vmrs.getD h2o_index.toNat 0 /
          ((t.vmrs_ref.getD h2o_index.toNat []).getD this_p 0)) then
    some .HumidityOutOfRange
  else none

/-- First range-check failure over the p_interp_order+1 bracketing
pressure levels, in loop order (gas_abs_lookup.cc:748-881). -/
def first_level_error (t : GasAbsLookup) (h2o_index : Int) (T : ℚ)
    (abs_vmrs : List ℚ) (pgp : List Nat) (p_interp_order : Nat) : Option Err :=
  (List.range (p_interp_order + 1)).findSome?
    (fun pi => level_error t h2o_index T abs_vmrs (pgp.getD pi 0))

/-- Interpolation part of GasAbsLookup::Extract once every check has
passed (gas_abs_lookup.cc:724-1062): for each of the p_interp_order+1
bracketing pressure levels interpolate over the active perturbation
axes, combine the levels with the log-pressure interpolation weights,
and scale each species column by number density times its VMR. -/
def extract_result (lg : ℚ → ℚ) (t : GasAbsLookup)
    (p_interp_order t_interp_order h2o_interp_order : Nat)
    (f_index : Int) (p T : ℚ) (abs_vmrs : List ℚ) : List (List ℚ) :=
  let n_species := t.species.length
  let h2o_index : Int := find_first_species_tg t.species H2O
  let f_start := if f_index < 0 then 0 else f_index.toNat
  let f_extent := if f_index < 0 then t.f_grid.length else 1
  let non_linear := (List.range n_species).map (fun i => t.nonlinear_species.contains i)
  let nd := number_density p T
  let pgp := gridpos_poly t.log_p_grid (lg p) p_interp_order
  let pitw := interpweights t.log_p_grid (lg p) pgp
  let spos := spec_pos_in_xsec non_linear t.nls_pert.length
  let levels := (List.range (p_interp_order + 1)).map (fun pi =>
    let this_p := pgp.getD pi 0
    let T_offset := T - t.t_ref.getD this_p 0
    let tgp := gridpos_poly t.t_pert T_offset t_interp_order
    let titw := interpweights t.t_pert T_offset tgp
    let vmr_frac := abs_vmrs.getD h2o_index.toNat 0 /
      ((t.vmrs_ref.getD h2o_index.toNat []).getD this_p 0)
    let vgp := gridpos_poly t.nls_pert vmr_frac h2o_interp_order
    let hitw := interpweights t.nls_pert vmr_frac vgp
    (List.range f_extent).map (fun f => (List.range n_species).map (fun si =>
      interp_res t.xsec (t.t_pert.length != 0) (non_linear.getD si false)
        tgp vgp titw hitw t_interp_order h2o_interp_order
        (spos.getD si 0) f_start this_p f)))
  (List.range f_extent).map (fun f => (List.range n_species).map (fun si =>
    ((List.range (p_interp_order + 1)).map (fun pi =>
      pitw.getD pi 0 * (((levels.getD pi []).getD f []).getD si 0))).sum *
      (nd * abs_vmrs.getD si 0)))

/-- GasAbsLookup::Extract (gas_abs_lookup.cc:517-1063).  Checks run in
source order; the result is the frequency-by-species matrix of
pressure-combined interpolated coefficients, scaled by number density
times the species VMR.  lg stands for the natural logarithm (the
pressure interpolation is done in log-pressure space, cc:727-731). -/
def Extract (lg : ℚ → ℚ) (t : GasAbsLookup)
    (p_interp_order t_interp_order h2o_interp_order : Nat)
    (f_index : Int) (p T : ℚ) (abs_vmrs : List ℚ) : Except Err (List (List ℚ)) :=
  let n_species := t.species.length
  let n_nls := t.nonlinear_species.length
  let n_f_grid := t.f_grid.length
  let n_p_grid := t.p_grid.length
  let n_t_pert := t.t_pert.length
  let n_nls_pert := t.nls_pert.length
  -- When there are no nonlinear species the source leaves h2o_index at -1
  -- and never reads it (all its uses are guarded); the embedding computes
  -- the lookup unconditionally, every use below being equally guarded.
  let h2o_index : Int := find_first_species_tg t.species H2O
  if 0 < n_nls ∧ h2o_index = -1 then .error .NoHumidityReferenceSpecies
  else if ¬ t.log_p_grid.length = n_p_grid then .error .TableNotAdapted
  else if ¬ p_order_ok n_p_grid p_interp_order then .error .InsufficientGridForOrder
  else if ¬ pert_order_ok n_nls_pert h2o_interp_order then .error .InsufficientGridForOrder
  else if ¬ pert_order_ok n_t_pert t_interp_order then .error .InsufficientGridForOrder
  else if ¬ abs_vmrs.length = n_species then .error .DimensionMismatch
  else if 0 ≤ f_index ∧ (n_f_grid : Int) ≤ f_index then .error .IndexOutOfRange
  else if ¬ pressure_range_ok t.p_grid p then .error .PressureOutOfRange
  else
    match first_level_error t h2o_index T abs_vmrs
      (gridpos_poly t.log_p_grid (lg p) p_interp_order) p_interp_order with
    | some e => .error e
    | none =>
      .ok (extract_result lg t p_interp_order t_interp_order h2o_interp_order
        f_index p T abs_vmrs)

/-- The inner scan returns the first old-grid position at or after j whose
value is within tolerance 1 of x; all positions it skipped are farther
away than the tolerance. -/
theorem scanFrom_ok (x : ℚ) : ∀ (l : List ℚ) (j k : Nat), scanFrom x j l = .ok k →
    ∃ m, k = j + m ∧ m < l.length ∧ |x - l.getD m 0| ≤ 1 ∧
      ∀ m', m' < m → 1 < |x - l.getD m' 0| := by
  intro l
  induction l with
  | nil => intro j k h; simp [scanFrom] at h
  | cons g rest ih =>
    intro j k h
    by_cases hg : |x - g| ≤ 1
    · rw [scanFrom, if_pos hg] at h
      refine ⟨0, ?_, by simp, by simpa using hg, by omega⟩
      cases h; omega
    · rw [scanFrom, if_neg hg] at h
      obtain ⟨m, hk, hm, htol, hskip⟩ := ih (j + 1) k h
      refine ⟨m + 1, by omega, by simpa using hm, by simpa using htol, ?_⟩
      intro m' hm'
      match m' with
      | 0 => simpa using lt_of_not_le hg
      | m'' + 1 => simpa using hskip m'' (by omega)

/-- Success properties of the outer locator loop: one position per new
grid point, positions never moving backwards past the cursor, each in
bounds and within tolerance of its new grid value. -/
theorem find_go_ok (old : List ℚ) : ∀ (new : List ℚ) (j : Nat) (pos : List Nat),
    find_go old j new = .ok pos →
    pos.length = new.length ∧ List.Chain' (fun a b => a ≤ b) (j :: pos) ∧
    ∀ i, (hi : i < pos.length) → pos[i] < old.length ∧
      |new.getD i 0 - old.getD pos[i] 0| ≤ 1 := by
  intro new
  induction new with
  | nil =>
    intro j pos h
    simp only [find_go] at h
    cases h
    exact ⟨rfl, by simp, by intro i hi; simp at hi⟩
  | cons x rest ih =>
    intro j pos h
    simp only [find_go] at h
    cases hscan : scanFrom x j (old.drop j) with
    | error e => simp [hscan] at h
    | ok k =>
      simp only [hscan] at h
      cases hrest : find_go old k rest with
      | error e => simp [hrest] at h
      | ok ks =>
        simp only [hrest, Except.ok.injEq] at h
        subst h
        obtain ⟨m, hk, hm, htol, _⟩ := scanFrom_ok x _ _ _ hscan
        have hdl : (old.drop j).length = old.length - j := by simp
        have hkb : k < old.length := by omega
        have hval : (old.drop j).getD m 0 = old.getD k 0 := by
          rw [List.getD_eq_getElem _ _ hm, List.getD_eq_getElem _ _ (by omega : k < old.length)]
          rw [List.getElem_drop]
          congr 1
          omega
        obtain ⟨hlen, hchain, hprop⟩ := ih k ks hrest
        refine ⟨by simpa using hlen, ?_, ?_⟩
        · refine List.chain'_cons.mpr ⟨by omega, hchain⟩
        · intro i hi
          match i with
          | 0 => exact ⟨hkb, by rw [hval] at htol; simpa using htol⟩
          | i' + 1 =>
            have := hprop i' (by simpa using hi)
            simpa using this

/-- Claim C4: for sorted grids the locator yields, per new grid point, a
position within tolerance 1 of it via one monotone forward scan, failing
with GridPointNotFound when a point cannot be matched; on the concrete
scenario grids it returns positions 0 and 2, and fails on 250. -/
theorem C4_grid_locator :
    (∀ (old new : List ℚ) (pos : List Nat),
      find_new_grid_in_old_grid old new = .ok pos →
      pos.length = new.length ∧ List.Chain' (fun a b => a ≤ b) pos ∧
      ∀ i, (hi : i < pos.length) → pos[i] < old.length ∧
        |new.getD i 0 - old.getD pos[i] 0| ≤ 1) ∧
    find_new_grid_in_old_grid [100, 200, 300] [502/5, 1498/5] = .ok [0, 2] ∧
    find_new_grid_in_old_grid [100, 200, 300] [250] = .error .GridPointNotFound := by
  refine ⟨?_,
    by norm_num [find_new_grid_in_old_grid, find_go, scanFrom, abs_le, le_abs],
    by norm_num [find_new_grid_in_old_grid, find_go, scanFrom, abs_le, le_abs]⟩
  intro old new pos h
  obtain ⟨hlen, hchain, hprop⟩ := find_go_ok old new 0 pos h
  exact ⟨hlen, hchain.tail, hprop⟩

/-- Application of claim C4's theorem to the concrete scenario grids. -/
theorem C4_grid_locator_witness :
    ([0, 2] : List Nat).length = ([502/5, (1498 : ℚ)/5] : List ℚ).length ∧
    List.Chain' (fun a b => a ≤ b) ([0, 2] : List Nat) := by
  have h := C4_grid_locator.1 [100, 200, 300] [502/5, 1498/5] [0, 2] C4_grid_locator.2.1
  exact ⟨h.1, h.2.1⟩

/-- Conjunction of all Adapt input checks that precede the species
lookup, in source order (gas_abs_lookup.cc:168-309). -/
def AdaptPre (t : GasAbsLookup) (current_species : List Nat) (current_f_grid : List ℚ) : Prop :=
  ¬ t.species.length = 0 ∧
  t.nonlinear_species.Nodup ∧
  t.nonlinear_species.all (fun i => i + 1 ≤ t.species.length) = true ∧
  is_increasing t.f_grid = true ∧
  is_decreasing t.p_grid = true ∧
  (t.vmrs_ref.length = t.species.length ∧
    t.vmrs_ref.all (fun r => r.length = t.p_grid.length) = true) ∧
  t.t_ref.length = t.p_grid.length ∧
  ¬ (t.nonlinear_species.length = 0 ∧ ¬ t.nls_pert.length = 0) ∧
  ¬ (¬ t.nonlinear_species.length = 0 ∧ t.nls_pert.length = 0) ∧
  chk_xsec_size t = true ∧
  ¬ current_species.length = 0 ∧
  is_increasing current_f_grid = true

/-- When every input check passes, Adapt proceeds to the lookup and build
steps. -/
theorem Adapt_eq_core (lg : ℚ → ℚ) (t : GasAbsLookup) (S : List Nat) (F : List ℚ)
    (h : AdaptPre t S F) : Adapt lg t S F = adapt_core lg t S F := by
  obtain ⟨h1, h2, h3, h4, h5, h6, h7, h8, h9, h10, h11, h12⟩ := h
  rw [Adapt, if_neg h1, if_neg (not_not_intro h2), if_neg (by simp [h3]),
    if_neg (by simp [h4]), if_neg (by simp [h5]), if_neg (by simp [h6.1, h6.2]),
    if_neg (not_not_intro h7), if_neg h8, if_neg h9, if_neg (by simp [h10]),
    if_neg h11, if_neg (by simp [h12])]

/-- The species lookup fails with SpeciesNotFound when the table contains
no species twice and some requested species is absent. -/
theorem lookup_species_notfound (tbl : List Nat) : ∀ (S : List Nat),
    (∀ s ∈ S, tbl.count s ≤ 1) → (∃ s ∈ S, s ∉ tbl) →
    lookup_species tbl S = .error .SpeciesNotFound := by
  intro S
  induction S with
  | nil => intro _ habs; simp at habs
  | cons s rest ih =>
    intro hcnt habs
    by_cases hs : s ∈ tbl
    · have hone : tbl.count s = 1 := by
        have := hcnt s (by simp)
        have := List.count_pos_iff.mpr hs
        omega
      rw [lookup_species, chk_contains, if_neg (by omega), if_pos hone]
      obtain ⟨w, hw, hwmem⟩ := habs
      have hwrest : w ∈ rest := by
        cases hw with
        | head => exact absurd hs hwmem
        | tail _ h => exact h
      rw [ih (fun a ha => hcnt a (by simp [ha])) ⟨w, hwrest, hwmem⟩]
    · have hzero : tbl.count s = 0 := List.count_eq_zero.mpr hs
      rw [lookup_species, chk_contains, if_pos hzero]

/-- Example table: two ordinary species, no optional axes. -/
def exampleTableA : GasAbsLookup :=
  { species := [1, 2], nonlinear_species := [], f_grid := [100, 200],
    p_grid := [1000, 100], vmrs_ref := [[1/100, 1/100], [1/200, 1/200]],
    t_ref := [296, 250], t_pert := [], nls_pert := [],
    xsec := [[[[11, 12], [13, 14]], [[21, 22], [23, 24]]]] }

/-- Example table: one nonlinear (water) and one ordinary species, with
temperature and humidity perturbation axes. -/
def exampleTableB : GasAbsLookup :=
  { species := [0, 1], nonlinear_species := [0], f_grid := [100, 200],
    p_grid := [1000, 100], vmrs_ref := [[1/100, 1/100], [21/100, 21/100]],
    t_ref := [296, 250], t_pert := [-10, 10], nls_pert := [1/2, 1, 2],
    xsec := [[[[1, 1], [1, 1]], [[1, 1], [1, 1]], [[1, 1], [1, 1]], [[1, 1], [1, 1]]],
             [[[1, 1], [1, 1]], [[1, 1], [1, 1]], [[1, 1], [1, 1]], [[1, 1], [1, 1]]]] }

/-- Claim C3: a failing Adapt leaves the table exactly as it was (every
throw precedes the single whole-object assignment), requesting an absent
species fails with SpeciesNotFound, and a successful Adapt replaces the
table atomically by the newly built one. -/
theorem C3_adapt_failure_leaves_table :
    (∀ (lg : ℚ → ℚ) (t : GasAbsLookup) (S : List Nat) (F : List ℚ) (e : Err),
      (AdaptMethod lg t S F).2 = some e → (AdaptMethod lg t S F).1 = t) ∧
    (∀ (lg : ℚ → ℚ) (t : GasAbsLookup) (S : List Nat) (F : List ℚ),
      AdaptPre t S F → (∀ s ∈ S, t.species.count s ≤ 1) → (∃ s ∈ S, s ∉ t.species) →
      AdaptMethod lg t S F = (t, some .SpeciesNotFound)) ∧
    (∀ (lg : ℚ → ℚ) (t t' : GasAbsLookup) (S : List Nat) (F : List ℚ),
      Adapt lg t S F = .ok t' → AdaptMethod lg t S F = (t', none)) := by
  refine ⟨?_, ?_, ?_⟩
  · intro lg t S F e h
    rw [AdaptMethod] at h ⊢
    cases hA : Adapt lg t S F with
    | ok t' => simp [hA] at h
    | error e' => simp [hA]
  · intro lg t S F hpre hcnt habs
    rw [AdaptMethod, Adapt_eq_core lg t S F hpre, adapt_core,
      lookup_species_notfound t.species S hcnt habs]
  · intro lg t t' S F h
    rw [AdaptMethod, h]

/-- Application of claim C3's theorem: requesting species 3, absent from
example table A, fails with SpeciesNotFound and returns the table
unchanged. -/
theorem C3_adapt_failure_leaves_table_witness :
    AdaptMethod id exampleTableA [3] [100] = (exampleTableA, some .SpeciesNotFound) := by
  refine C3_adapt_failure_leaves_table.2.1 id exampleTableA [3] [100] ?_ ?_ ?_
  · refine ⟨by norm_num [exampleTableA], by simp [exampleTableA], by simp [exampleTableA],
      ?_, ?_, by simp [exampleTableA], by norm_num [exampleTableA],
      by simp [exampleTableA], by simp [exampleTableA], ?_,
      by norm_num, ?_⟩
    · norm_num [exampleTableA, is_increasing]
    · norm_num [exampleTableA, is_decreasing]
    · norm_num [exampleTableA, chk_xsec_size, tensor4_size]
    · norm_num [is_increasing]
  · intro s hs
    simp at hs
    subst hs
    norm_num [exampleTableA]
  · exact ⟨3, by simp, by norm_num [exampleTableA]⟩

/-- Adapted variant of example table A (log-pressure cache set, here with
lg the identity). -/
def exampleTableA' : GasAbsLookup :=
  { exampleTableA with log_p_grid := exampleTableA.p_grid }

/-- Claim C5: a successful Extract returns one row per selected frequency
(all of them for a negative index, exactly one otherwise), each row as
long as the species list; an index at or beyond the frequency-grid
length fails with IndexOutOfRange once the preceding checks pass. -/
theorem C5_frequency_selection :
    (∀ (lg : ℚ → ℚ) (t : GasAbsLookup) (p_o t_o h_o : Nat) (f_index : Int)
      (p T : ℚ) (vmrs : List ℚ) (r : List (List ℚ)),
      Extract lg t p_o t_o h_o f_index p T vmrs = .ok r →
      (f_index < 0 → r.length = t.f_grid.length) ∧
      (0 ≤ f_index → r.length = 1) ∧
      (∀ row ∈ r, row.length = t.species.length)) ∧
    (∀ (lg : ℚ → ℚ) (t : GasAbsLookup) (p_o t_o h_o : Nat) (f_index : Int)
      (p T : ℚ) (vmrs : List ℚ),
      (0 < t.nonlinear_species.length → find_first_species_tg t.species H2O ≠ -1) →
      t.log_p_grid.length = t.p_grid.length →
      p_order_ok t.p_grid.length p_o = true →
      pert_order_ok t.nls_pert.length h_o = true →
      pert_order_ok t.t_pert.length t_o = true →
      vmrs.length = t.species.length →
      (t.f_grid.length : Int) ≤ f_index →
      Extract lg t p_o t_o h_o f_index p T vmrs = .error .IndexOutOfRange) := by
  constructor
  · intro lg t p_o t_o h_o f_index p T vmrs r h
    simp only [Extract] at h
    split at h
    · cases h
    split at h
    · cases h
    split at h
    · cases h
    split at h
    · cases h
    split at h
    · cases h
    split at h
    · cases h
    split at h
    · cases h
    split at h
    · cases h
    split at h
    · cases h
    · rw [Except.ok.injEq] at h
      subst h
      refine ⟨?_, ?_, ?_⟩
      · intro hneg
        simp [extract_result, hneg]
      · intro hpos
        simp [extract_result, if_neg (by omega : ¬ f_index < 0)]
      · intro row hrow
        simp only [extract_result, List.mem_map] at hrow
        obtain ⟨f, _, hrow⟩ := hrow
        simp [← hrow]
  · intro lg t p_o t_o h_o f_index p T vmrs hh2o hlog hpo hho hto hvmr hf
    have h0 : (0 : Int) ≤ f_index := le_trans (Int.ofNat_nonneg _) hf
    have hc1 : ¬ (0 < t.nonlinear_species.length ∧
        find_first_species_tg t.species H2O = -1) := by
      rintro ⟨hn, heq⟩
      exact hh2o hn heq
    simp only [Extract]
    rw [if_neg hc1, if_neg (not_not_intro hlog), if_neg (by simp [hpo]),
      if_neg (by simp [hho]), if_neg (by simp [hto]), if_neg (not_not_intro hvmr),
      if_pos ⟨h0, hf⟩]

/-- Application of claim C5's theorem: frequency index 5 in the
two-frequency example table fails with IndexOutOfRange. -/
theorem C5_frequency_selection_witness :
    Extract id exampleTableA' 0 0 0 5 500 250 [1/100, 1/200] = .error .IndexOutOfRange := by
  refine C5_frequency_selection.2 id exampleTableA' 0 0 0 5 500 250 [1/100, 1/200]
    ?_ ?_ ?_ ?_ ?_ ?_ ?_
  · simp [exampleTableA', exampleTableA]
  · decide
  · decide
  · decide
  · decide
  · simp [exampleTableA', exampleTableA]
  · decide

/-- Pressure interval asserted by the spec sentence for claim C6: the
bounds of the claim evaluated in log space, with half-bin widths taken
from the logarithms of the adjacent grid values. -/
def spec_log_pressure_interval (p_grid : List ℝ) (p : ℝ) : Prop :=
  let n := p_grid.length
  Real.log (p_grid.getD (n - 1) 0) -
      (1 / 2) * (Real.log (p_grid.getD (n - 2) 0) - Real.log (p_grid.getD (n - 1) 0)) ≤
    Real.log p ∧
  Real.log p ≤ Real.log (p_grid.getD 0 0) +
      (1 / 2) * (Real.log (p_grid.getD 0 0) - Real.log (p_grid.getD 1 0))

/-- Counterexample to claim C6 as stated: with pressure grid
[1000, 500, 100] Pa the pressure 1 Pa passes the code's range check
(whose linear-space lower bound is -100 Pa), while the log-space
interval claimed by the spec excludes it (its lower bound is
100/sqrt(5) Pa, about 44.7 Pa). -/
theorem C6_pressure_boundary_counterexample :
    pressure_range_ok [1000, 500, 100] 1 = true ∧
    ¬ spec_log_pressure_interval [1000, 500, 100] 1 := by
  constructor
  · norm_num [pressure_range_ok]
  · intro hspec
    obtain ⟨hlo, _⟩ := hspec
    simp only [spec_log_pressure_interval, List.length_cons, List.length_nil] at hlo
    norm_num [Real.log_one] at hlo
    have h1 : Real.log 500 < 3 * Real.log 100 := by
      have : (3 : ℝ) * Real.log 100 = Real.log (100 ^ 3) := by
        rw [Real.log_pow]
        push_cast
        ring
      rw [this]
      exact Real.log_lt_log (by norm_num) (by norm_num)
    linarith

/-- Claim C6 (amended): with at least two pressure levels, p exactly at
pressureGrid[0] + 0.5*(pressureGrid[0] - pressureGrid[1]) passes the
pressure range check and any larger p fails it; the allowed interval is
[pressureGrid[last] - half-bin, pressureGrid[0] + half-bin] evaluated in
plain linear pressure (not log space), with half-bin widths from the
adjacent grid spacing at each boundary; a pressure failing the check
makes Extract fail with PressureOutOfRange. -/
theorem C6_pressure_boundary :
    (∀ (pg : List ℚ) (p : ℚ), 2 ≤ pg.length → is_decreasing pg = true →
      pressure_range_ok pg (pg.getD 0 0 + (1 / 2) * (pg.getD 0 0 - pg.getD 1 0)) = true ∧
      (pg.getD 0 0 + (1 / 2) * (pg.getD 0 0 - pg.getD 1 0) < p →
        pressure_range_ok pg p = false) ∧
      (pressure_range_ok pg p = true ↔
        pg.getD (pg.length - 1) 0 -
            (1 / 2) * (pg.getD (pg.length - 2) 0 - pg.getD (pg.length - 1) 0) ≤ p ∧
          p ≤ pg.getD 0 0 + (1 / 2) * (pg.getD 0 0 - pg.getD 1 0))) ∧
    (∀ (lg : ℚ → ℚ) (t : GasAbsLookup) (p_o t_o h_o : Nat) (f_index : Int)
      (p T : ℚ) (vmrs : List ℚ),
      (0 < t.nonlinear_species.length → find_first_species_tg t.species H2O ≠ -1) →
      t.log_p_grid.length = t.p_grid.length →
      p_order_ok t.p_grid.length p_o = true →
      pert_order_ok t.nls_pert.length h_o = true →
      pert_order_ok t.t_pert.length t_o = true →
      vmrs.length = t.species.length →
      ¬ (0 ≤ f_index ∧ (t.f_grid.length : Int) ≤ f_index) →
      pressure_range_ok t.p_grid p = false →
      Extract lg t p_o t_o h_o f_index p T vmrs = .error .PressureOutOfRange) := by
  constructor
  · intro pg p hlen hdec
    have hpw := (List.chain'_iff_pairwise.mp (of_decide_eq_true hdec))
    have hgt : ∀ i j, (hi : i < pg.length) → (hj : j < pg.length) → i < j →
        pg.getD j 0 < pg.getD i 0 := by
      intro i j hi hj hij
      rw [List.getD_eq_getElem _ _ hi, List.getD_eq_getElem _ _ hj]
      exact List.pairwise_iff_getElem.mp hpw i j hi hj hij
    have h01 : pg.getD 1 0 < pg.getD 0 0 := hgt 0 1 (by omega) (by omega) (by omega)
    have hlast : pg.getD (pg.length - 1) 0 < pg.getD (pg.length - 2) 0 :=
      hgt (pg.length - 2) (pg.length - 1) (by omega) (by omega) (by omega)
    have hfirstlast : pg.getD (pg.length - 1) 0 ≤ pg.getD 0 0 := by
      rcases Nat.lt_or_ge 0 (pg.length - 1) with hpos | hz
      · exact le_of_lt (hgt 0 (pg.length - 1) (by omega) (by omega) hpos)
      · have : pg.length - 1 = 0 := by omega
        rw [this]
    refine ⟨?_, ?_, ?_⟩
    · simp only [pressure_range_ok, decide_eq_true_eq]
      push_neg
      constructor
      · linarith
      · linarith
    · intro hp
      simp only [pressure_range_ok]
      rw [decide_eq_false_iff_not]
      push_neg
      exact Or.inl hp
    · simp only [pressure_range_ok, decide_eq_true_eq]
      push_neg
      constructor
      · rintro ⟨ha, hb⟩
        exact ⟨by linarith, by linarith⟩
      · rintro ⟨ha, hb⟩
        exact ⟨by linarith, by linarith⟩
  · intro lg t p_o t_o h_o f_index p T vmrs hh2o hlog hpo hho hto hvmr hfi hpres
    have hc1 : ¬ (0 < t.nonlinear_species.length ∧
        find_first_species_tg t.species H2O = -1) := by
      rintro ⟨hn, heq⟩
      exact hh2o hn heq
    simp only [Extract]
    rw [if_neg hc1, if_neg (not_not_intro hlog), if_neg (by simp [hpo]),
      if_neg (by simp [hho]), if_neg (by simp [hto]), if_neg (not_not_intro hvmr),
      if_neg hfi, if_pos (by simp [hpres])]

/-- Application of claim C6's theorem at the scenario grid
[1000, 500, 100]: the boundary pressure 1250 passes the check and the
linear interval characterisation holds at p = 1300. -/
theorem C6_pressure_boundary_witness :
    pressure_range_ok [1000, 500, 100]
      (([1000, 500, 100] : List ℚ).getD 0 0 +
        (1 / 2) * (([1000, 500, 100] : List ℚ).getD 0 0 -
          ([1000, 500, 100] : List ℚ).getD 1 0)) = true ∧
    (([1000, 500, 100] : List ℚ).getD 0 0 +
        (1 / 2) * (([1000, 500, 100] : List ℚ).getD 0 0 -
          ([1000, 500, 100] : List ℚ).getD 1 0) < 1300 →
      pressure_range_ok [1000, 500, 100] 1300 = false) := by
  have h := C6_pressure_boundary.1 [1000, 500, 100] 1300 (by norm_num)
    (by norm_num [is_decreasing])
  exact ⟨h.1, h.2.1⟩

/-- Shape of a 4-dimensional nested list as a proposition: the four axis
lengths of the shape check, spelled out. -/
def tensor4_dims (x : List (List (List (List ℚ)))) (a b c d : Nat) : Prop :=
  x.length = a ∧ ∀ bk ∈ x, bk.length = b ∧ ∀ pg ∈ bk, pg.length = c ∧ ∀ r ∈ pg, r.length = d

theorem tensor4_size_iff (x : List (List (List (List ℚ)))) (a b c d : Nat) :
    tensor4_size x a b c d = true ↔ tensor4_dims x a b c d := by
  simp [tensor4_size, tensor4_dims, List.all_eq_true]

/-- Legal coefficient shapes per the spec sentence of claim C7, with the
third case keyed on the presence of nonlinear species (the amendment):
(a) no temperature axis and no nonlinear species, first axis 1;
(b) temperature axis, no nonlinear species, first axis n_tpert;
(c) nonlinear species present, first axis n_tpert (which may be zero)
and expanded-species axis n_species + n_nls * (n_hpert - 1) in signed
arithmetic. -/
def spec_legal_shape (t : GasAbsLookup) : Prop :=
  (t.nonlinear_species = [] ∧ t.t_pert = [] ∧
    tensor4_dims t.xsec 1 t.species.length t.f_grid.length t.p_grid.length) ∨
  (t.nonlinear_species = [] ∧ t.t_pert ≠ [] ∧
    tensor4_dims t.xsec t.t_pert.length t.species.length t.f_grid.length t.p_grid.length) ∨
  (t.nonlinear_species ≠ [] ∧ ∃ b : Nat,
    (b : Int) = (t.species.length : Int) +
      (t.nonlinear_species.length : Int) * ((t.nls_pert.length : Int) - 1) ∧
    tensor4_dims t.xsec t.t_pert.length b t.f_grid.length t.p_grid.length)

/-- Degenerate table for claim C7: one nonlinear species, no temperature
perturbations, and a coefficient array with zero books. -/
def exampleTableC7 : GasAbsLookup :=
  { species := [7], nonlinear_species := [0], f_grid := [100], p_grid := [1000],
    vmrs_ref := [[1/100]], t_ref := [250], t_pert := [], nls_pert := [1], xsec := [] }

/-- Counterexample to claim C7 as stated: the degenerate table (nonlinear
species present, no temperature axis) is accepted by Adapt with a
coefficient array whose first axis has length 0, not max(n_tpert,1) = 1;
the accepted configuration is outside the claim's three cases. -/
theorem C7_xsec_shape_counterexample :
    (Adapt id exampleTableC7 [7] [100]).isOk = true ∧
    chk_xsec_size exampleTableC7 = true ∧
    exampleTableC7.nonlinear_species ≠ [] ∧
    exampleTableC7.t_pert.length = 0 ∧
    exampleTableC7.xsec.length ≠ max exampleTableC7.t_pert.length 1 := by
  refine ⟨?_, by decide, by decide, by decide, by decide⟩
  have : Adapt id exampleTableC7 [7] [100] =
      .ok { species := [7], nonlinear_species := [0], f_grid := [100],
            p_grid := [1000], vmrs_ref := [[1/100]], t_ref := [250],
            t_pert := [], nls_pert := [1], xsec := [], log_p_grid := [1000] } := by
    norm_num [Adapt, adapt_core, adapt_build, adapt_non_linear,
      adapt_current_non_linear, adapt_new_nonlinear, adapt_page_idx,
      lookup_species, chk_contains, find_new_grid_in_old_grid, find_go, scanFrom,
      is_increasing, is_decreasing, chk_xsec_size, tensor4_size, spec_pos_in_xsec,
      spec_sizes, xsec_offsets, exampleTableC7, abs_le, le_abs]
    all_goals decide
  rw [this]
  rfl

/-- Claim C7 (amended): the shape check accepts exactly the three-case
rule with case (c) keyed on the presence of nonlinear species (first
axis n_tpert even when zero); the first axis equals max(n_tpert, 1)
whenever there are no nonlinear species or the temperature axis is
present; with every earlier check passing, an illegal shape makes Adapt
fail with ShapeMismatch. -/
theorem C7_xsec_shape :
    (∀ t : GasAbsLookup, chk_xsec_size t = true ↔ spec_legal_shape t) ∧
    (∀ t : GasAbsLookup, chk_xsec_size t = true →
      (t.nonlinear_species = [] ∨ t.t_pert ≠ []) →
      t.xsec.length = max t.t_pert.length 1) ∧
    (∀ (lg : ℚ → ℚ) (t : GasAbsLookup) (S : List Nat) (F : List ℚ),
      ¬ t.species.length = 0 →
      t.nonlinear_species.Nodup →
      t.nonlinear_species.all (fun i => i + 1 ≤ t.species.length) = true →
      is_increasing t.f_grid = true →
      is_decreasing t.p_grid = true →
      t.vmrs_ref.length = t.species.length →
      t.vmrs_ref.all (fun r => r.length = t.p_grid.length) = true →
      t.t_ref.length = t.p_grid.length →
      ¬ (t.nonlinear_species.length = 0 ∧ ¬ t.nls_pert.length = 0) →
      ¬ (¬ t.nonlinear_species.length = 0 ∧ t.nls_pert.length = 0) →
      chk_xsec_size t = false →
      Adapt lg t S F = .error .ShapeMismatch) := by
  refine ⟨?_, ?_, ?_⟩
  · intro t
    rw [chk_xsec_size]
    by_cases h1 : t.nonlinear_species.length = 0
    · have he : t.nonlinear_species = [] := List.length_eq_zero.mp h1
      rw [if_pos h1]
      by_cases h2 : t.t_pert.length = 0
      · have he2 : t.t_pert = [] := List.length_eq_zero.mp h2
        rw [if_pos h2, tensor4_size_iff]
        simp [spec_legal_shape, he, he2]
      · have hne2 : t.t_pert ≠ [] := by
          intro hh
          exact h2 (by simp [hh])
        rw [if_neg h2, tensor4_size_iff]
        simp [spec_legal_shape, he, hne2]
    · have hne : t.nonlinear_species ≠ [] := by
        intro hh
        exact h1 (by simp [hh])
      rw [if_neg h1]
      simp only [Bool.and_eq_true, decide_eq_true_eq, tensor4_size_iff]
      constructor
      · rintro ⟨hb, hdims⟩
        exact Or.inr (Or.inr ⟨hne, _, Int.toNat_of_nonneg hb, hdims⟩)
      · rintro (⟨h, _, _⟩ | ⟨h, _, _⟩ | ⟨_, bn, hbn, hdims⟩)
        · exact absurd h hne
        · exact absurd h hne
        · refine ⟨by rw [← hbn]; exact Int.ofNat_nonneg bn, ?_⟩
          have : ((t.species.length : Int) +
              (t.nonlinear_species.length : Int) *
                ((t.nls_pert.length : Int) - 1)).toNat = bn := by
            rw [← hbn]
            exact Int.toNat_ofNat bn
          rw [this]
          exact hdims
  · intro t hchk hcfg
    rw [chk_xsec_size] at hchk
    by_cases h1 : t.nonlinear_species.length = 0
    · rw [if_pos h1] at hchk
      by_cases h2 : t.t_pert.length = 0
      · rw [if_pos h2] at hchk
        have := (tensor4_size_iff _ _ _ _ _).mp hchk
        rw [this.1, h2]
        decide
      · rw [if_neg h2] at hchk
        have := (tensor4_size_iff _ _ _ _ _).mp hchk
        rw [this.1]
        exact (max_eq_left (by omega)).symm
    · rcases hcfg with hni | hpert
      · exact absurd (by simp [hni]) h1
      · rw [if_neg h1] at hchk
        simp only [Bool.and_eq_true, decide_eq_true_eq, tensor4_size_iff] at hchk
        rw [hchk.2.1]
        have hlp : t.t_pert.length ≠ 0 := by
          intro hh
          exact hpert (List.length_eq_zero.mp hh)
        exact (max_eq_left (by omega)).symm
  · intro lg t S F h1 h2 h3 h4 h5 h6a h6b h7 h8 h9 hshape
    rw [Adapt, if_neg h1, if_neg (not_not_intro h2), if_neg (by simp [h3]),
      if_neg (by simp [h4]), if_neg (by simp [h5]), if_neg (by simp [h6a, h6b]),
      if_neg (not_not_intro h7), if_neg h8, if_neg h9, if_pos (by simp [hshape])]

/-- Table with an illegal coefficient shape (no books where one is
required). -/
def exampleTableBadShape : GasAbsLookup := { exampleTableA with xsec := [] }

/-- Application of claim C7's theorem: the empty coefficient array of the
bad-shape table is rejected by Adapt with ShapeMismatch, and example
table B (temperature axis present) has first axis max(n_tpert, 1) = 2. -/
theorem C7_xsec_shape_witness :
    Adapt id exampleTableBadShape [1] [100] = .error .ShapeMismatch ∧
    exampleTableB.xsec.length = max exampleTableB.t_pert.length 1 := by
  constructor
  · refine C7_xsec_shape.2.2 id exampleTableBadShape [1] [100]
      (by decide) (by decide) (by decide) ?_ ?_ (by decide) (by decide)
      (by decide) (by decide) (by decide) (by decide)
    · norm_num [is_increasing, exampleTableBadShape, exampleTableA]
    · norm_num [is_decreasing, exampleTableBadShape, exampleTableA]
  · exact C7_xsec_shape.2.1 exampleTableB (by decide) (by decide)

/-- Claim C9 (code bug evaluated at the failing input): a single-entry
pressure grid passes the order check for order 0, yet the pressure range
check reads positions 1 and n_press - 2 = -1, both out of bounds; the
same holds for single-entry temperature and humidity perturbation axes;
with at least two entries every read is in bounds. -/
theorem C9_half_bin_reads_out_of_bounds :
    p_order_ok 1 0 = true ∧
    pert_order_ok 1 0 = true ∧
    (1 : Int) ∈ pressure_check_reads 1 ∧ idx_in_bounds 1 1 = false ∧
    (-1 : Int) ∈ pressure_check_reads 1 ∧ idx_in_bounds 1 (-1) = false ∧
    (pressure_check_reads 1).all (idx_in_bounds 1) = false ∧
    (t_check_reads 1).all (idx_in_bounds 1) = false ∧
    (nls_check_reads 1).all (idx_in_bounds 1) = false ∧
    (pressure_check_reads 3).all (idx_in_bounds 3) = true ∧
    (t_check_reads 2).all (idx_in_bounds 2) = true ∧
    (nls_check_reads 2).all (idx_in_bounds 2) = true := by
  decide

theorem chk_contains_ok (tbl : List Nat) (s : Nat) (k : Nat)
    (h : chk_contains tbl s = .ok k) : k = tbl.indexOf s ∧ tbl.count s = 1 := by
  rw [chk_contains] at h
  split at h
  · cases h
  · split at h
    · cases h
      exact ⟨rfl, by assumption⟩
    · cases h

/-- Success of the species lookup: the located indices are the indexOf
positions, and every requested species occurs exactly once. -/
theorem lookup_species_ok (tbl : List Nat) : ∀ (S ics : List Nat),
    lookup_species tbl S = .ok ics →
    ics = S.map (fun s => tbl.indexOf s) ∧ ∀ s ∈ S, tbl.count s = 1 := by
  intro S
  induction S with
  | nil =>
    intro ics h
    rw [lookup_species] at h
    cases h
    exact ⟨rfl, by simp⟩
  | cons s rest ih =>
    intro ics h
    rw [lookup_species] at h
    cases hc : chk_contains tbl s with
    | error e => simp [hc] at h
    | ok k =>
      simp only [hc] at h
      cases hr : lookup_species tbl rest with
      | error e => simp [hr] at h
      | ok ks =>
        simp only [hr, Except.ok.injEq] at h
        subst h
        obtain ⟨hk, hcnt1⟩ := chk_contains_ok tbl s k hc
        obtain ⟨hks, hcnt⟩ := ih ks hr
        subst hk
        subst hks
        refine ⟨by simp, ?_⟩
        intro a ha
        cases ha with
        | head => exact hcnt1
        | tail _ hmem => exact hcnt a hmem

/-- Every input check of a successful Adapt passed. -/
theorem Adapt_ok_pre (lg : ℚ → ℚ) (t : GasAbsLookup) (S : List Nat) (F : List ℚ)
    (t' : GasAbsLookup) (h : Adapt lg t S F = .ok t') : AdaptPre t S F := by
  have n1 : ¬ t.species.length = 0 := by
    intro hc
    rw [Adapt, if_pos hc] at h
    cases h
  have n2 : t.nonlinear_species.Nodup := by
    by_contra hc
    rw [Adapt, if_neg n1, if_pos hc] at h
    cases h
  have n3 : t.nonlinear_species.all (fun i => i + 1 ≤ t.species.length) = true := by
    by_contra hc
    rw [Adapt, if_neg n1, if_neg (not_not_intro n2), if_pos (by simpa using hc)] at h
    cases h
  have n4 : is_increasing t.f_grid = true := by
    by_contra hc
    rw [Adapt, if_neg n1, if_neg (not_not_intro n2), if_neg (by simp [n3]),
      if_pos (by simpa using hc)] at h
    cases h
  have n5 : is_decreasing t.p_grid = true := by
    by_contra hc
    rw [Adapt, if_neg n1, if_neg (not_not_intro n2), if_neg (by simp [n3]),
      if_neg (by simp [n4]), if_pos (by simpa using hc)] at h
    cases h
  have n6 : t.vmrs_ref.length = t.species.length ∧
      t.vmrs_ref.all (fun r => r.length = t.p_grid.length) = true := by
    by_contra hc
    rw [Adapt, if_neg n1, if_neg (not_not_intro n2), if_neg (by simp [n3]),
      if_neg (by simp [n4]), if_neg (by simp [n5]), if_pos (by simpa using hc)] at h
    cases h
  have n7 : t.t_ref.length = t.p_grid.length := by
    by_contra hc
    rw [Adapt, if_neg n1, if_neg (not_not_intro n2), if_neg (by simp [n3]),
      if_neg (by simp [n4]), if_neg (by simp [n5]), if_neg (by simp [n6.1, n6.2]),
      if_pos hc] at h
    cases h
  have n8 : ¬ (t.nonlinear_species.length = 0 ∧ ¬ t.nls_pert.length = 0) := by
    intro hc
    rw [Adapt, if_neg n1, if_neg (not_not_intro n2), if_neg (by simp [n3]),
      if_neg (by simp [n4]), if_neg (by simp [n5]), if_neg (by simp [n6.1, n6.2]),
      if_neg (not_not_intro n7), if_pos hc] at h
    cases h
  have n9 : ¬ (¬ t.nonlinear_species.length = 0 ∧ t.nls_pert.length = 0) := by
    intro hc
    rw [Adapt, if_neg n1, if_neg (not_not_intro n2), if_neg (by simp [n3]),
      if_neg (by simp [n4]), if_neg (by simp [n5]), if_neg (by simp [n6.1, n6.2]),
      if_neg (not_not_intro n7), if_neg n8, if_pos hc] at h
    cases h
  have n10 : chk_xsec_size t = true := by
    by_contra hc
    rw [Adapt, if_neg n1, if_neg (not_not_intro n2), if_neg (by simp [n3]),
      if_neg (by simp [n4]), if_neg (by simp [n5]), if_neg (by simp [n6.1, n6.2]),
      if_neg (not_not_intro n7), if_neg n8, if_neg n9,
      if_pos (by simpa using hc)] at h
    cases h
  have n11 : ¬ S.length = 0 := by
    intro hc
    rw [Adapt, if_neg n1, if_neg (not_not_intro n2), if_neg (by simp [n3]),
      if_neg (by simp [n4]), if_neg (by simp [n5]), if_neg (by simp [n6.1, n6.2]),
      if_neg (not_not_intro n7), if_neg n8, if_neg n9, if_neg (by simp [n10]),
      if_pos hc] at h
    cases h
  have n12 : is_increasing F = true := by
    by_contra hc
    rw [Adapt, if_neg n1, if_neg (not_not_intro n2), if_neg (by simp [n3]),
      if_neg (by simp [n4]), if_neg (by simp [n5]), if_neg (by simp [n6.1, n6.2]),
      if_neg (not_not_intro n7), if_neg n8, if_neg n9, if_neg (by simp [n10]),
      if_neg n11, if_pos (by simpa using hc)] at h
    cases h
  exact ⟨n1, n2, n3, n4, n5, n6, n7, n8, n9, n10, n11, n12⟩

/-- A successful Adapt is the build applied to successful species and
frequency lookups. -/
theorem Adapt_ok_inv (lg : ℚ → ℚ) (t : GasAbsLookup) (S : List Nat) (F : List ℚ)
    (t' : GasAbsLookup) (h : Adapt lg t S F = .ok t') :
    ∃ ics ifg, lookup_species t.species S = .ok ics ∧
      find_new_grid_in_old_grid t.f_grid F = .ok ifg ∧
      t' = adapt_build lg t ics ifg := by
  have hpre := Adapt_ok_pre lg t S F t' h
  rw [Adapt_eq_core lg t S F hpre, adapt_core] at h
  cases hls : lookup_species t.species S with
  | error e => rw [hls] at h; cases h
  | ok ics =>
    simp only [hls] at h
    cases hf : find_new_grid_in_old_grid t.f_grid F with
    | error e => rw [hf] at h; cases h
    | ok ifg =>
      simp only [hf, Except.ok.injEq] at h
      exact ⟨ics, ifg, rfl, rfl, h.symm⟩

theorem getD_map_range {α : Type} (f : Nat → α) (n i : Nat) (hi : i < n) (d : α) :
    ((List.range n).map f).getD i d = f i := by
  rw [List.getD_eq_getElem _ _ (by simpa using hi)]
  simp

theorem getD_false_of_all_false {l : List Bool} (h : ∀ b ∈ l, b = false) (i : Nat) :
    l.getD i false = false := by
  by_cases hi : i < l.length
  · rw [List.getD_eq_getElem _ _ hi]
    exact h _ (List.getElem_mem hi)
  · exact List.getD_eq_default _ _ (by omega)

/-- Total length of the copied page blocks: ordinary species contribute
one page, nonlinear ones n_nls_pert pages. -/
theorem sum_sizes_formula (p : Nat → Bool) (np : Nat) : ∀ n : Nat,
    ((List.range n).map (fun i => if p i then np else 1)).sum
      = (n - ((List.range n).filter p).length)
        + ((List.range n).filter p).length * np := by
  intro n
  induction n with
  | zero => simp
  | succ n ih =>
    have hle : ((List.range n).filter p).length ≤ n :=
      le_trans (List.length_filter_le _ _) (by simp)
    rw [List.range_succ, List.map_append, List.sum_append, List.filter_append,
      List.length_append, ih]
    by_cases hp : p n
    · simp only [List.filter_cons, hp, if_pos, List.filter_nil, List.length_cons,
        List.length_nil, List.map_cons, List.map_nil, List.sum_cons, List.sum_nil]
      rw [Nat.add_mul, Nat.one_mul]
      generalize ((List.range n).filter p).length * np = m
      omega
    · simp only [List.filter_cons, hp, List.filter_nil, List.length_nil,
        List.map_cons, List.map_nil, List.sum_cons, List.sum_nil, Bool.false_eq_true,
        if_false, List.length_cons, Nat.add_zero]
      generalize ((List.range n).filter p).length * np = m
      omega

theorem adapt_page_idx_length (t : GasAbsLookup) (ics : List Nat) :
    (adapt_page_idx t ics).length
      = (ics.length - (adapt_new_nonlinear t ics).length)
        + (adapt_new_nonlinear t ics).length * t.nls_pert.length := by
  rw [adapt_page_idx, List.length_flatten, List.map_map]
  have hmap : ((List.range ics.length).map
      (List.length ∘ fun i => List.range'
        ((spec_pos_in_xsec (adapt_non_linear t) t.nls_pert.length).getD
          (ics.getD i 0) 0)
        (if (adapt_current_non_linear t ics).getD i false then t.nls_pert.length
         else 1)))
      = (List.range ics.length).map
        (fun i => if (adapt_current_non_linear t ics).getD i false then
          t.nls_pert.length else 1) := by
    apply List.map_congr_left
    intro i _
    simp [List.length_range']
  rw [hmap, sum_sizes_formula, adapt_new_nonlinear]

/-- Claim C2: every table produced by a successful Adapt in a valid
configuration (no optional axis, temperature only, or temperature and
humidity) satisfies the coefficients-shape invariant with respect to its
own new fields: first axis max(n_tpert, 1), second axis
n_species + |nonlinearSpecies| * (n_hpert - 1), including when the
requested subset drops every nonlinear species. -/
theorem C2_adapted_shape :
    ∀ (lg : ℚ → ℚ) (t t' : GasAbsLookup) (S : List Nat) (F : List ℚ),
      (t.nonlinear_species = [] ∨ t.t_pert ≠ []) →
      Adapt lg t S F = .ok t' →
      t'.xsec.length = max t'.t_pert.length 1 ∧
      ∀ bk ∈ t'.xsec, bk.length =
        t'.species.length + t'.nonlinear_species.length * (t'.nls_pert.length - 1) := by
  intro lg t t' S F hcfg h
  have hpre := Adapt_ok_pre lg t S F t' h
  obtain ⟨ics, ifg, hls, hfs, ht'⟩ := Adapt_ok_inv lg t S F t' h
  obtain ⟨_, _, _, _, _, _, _, _, h9, h10, _, _⟩ := hpre
  subst ht'
  constructor
  · have hfirst : t.xsec.length = max t.t_pert.length 1 := by
      rw [chk_xsec_size] at h10
      by_cases h1 : t.nonlinear_species.length = 0
      · rw [if_pos h1] at h10
        by_cases h2 : t.t_pert.length = 0
        · rw [if_pos h2] at h10
          rw [((tensor4_size_iff _ _ _ _ _).mp h10).1, h2]
          decide
        · rw [if_neg h2] at h10
          rw [((tensor4_size_iff _ _ _ _ _).mp h10).1]
          exact (max_eq_left (by omega)).symm
      · rcases hcfg with hni | hpert
        · exact absurd (by simp [hni]) h1
        · rw [if_neg h1] at h10
          simp only [Bool.and_eq_true, decide_eq_true_eq, tensor4_size_iff] at h10
          rw [h10.2.1]
          have hlp : t.t_pert.length ≠ 0 := fun hh => hpert (List.length_eq_zero.mp hh)
          exact (max_eq_left (by omega)).symm
    simpa [adapt_build] using hfirst
  · intro bk hbk
    simp only [adapt_build, List.mem_map] at hbk
    obtain ⟨book, _, hbk⟩ := hbk
    subst hbk
    simp only [adapt_build, List.length_map]
    rw [adapt_page_idx_length]
    have hcntle : (adapt_new_nonlinear t ics).length ≤ ics.length := by
      rw [adapt_new_nonlinear]
      exact le_trans (List.length_filter_le _ _) (by simp)
    by_cases hnl : (adapt_new_nonlinear t ics).length = 0
    · rw [if_neg (not_not_intro hnl), hnl]
      simp
    · rw [if_pos hnl]
      have hnlne : ¬ t.nonlinear_species.length = 0 := by
        intro hz
        have hnle : t.nonlinear_species = [] := List.length_eq_zero.mp hz
        have hempty : adapt_new_nonlinear t ics = [] := by
          rw [adapt_new_nonlinear]
          apply List.filter_eq_nil_iff.mpr
          intro i _
          have hall : ∀ b ∈ adapt_current_non_linear t ics, b = false := by
            intro b hb
            simp only [adapt_current_non_linear, List.mem_map] at hb
            obtain ⟨k, _, hb⟩ := hb
            rw [← hb]
            apply getD_false_of_all_false
            intro b' hb'
            simp only [adapt_non_linear, List.mem_map] at hb'
            obtain ⟨i', _, hb'⟩ := hb'
            rw [← hb']
            simp [hnle]
          rw [getD_false_of_all_false hall]
          simp
        simp [hempty] at hnl
      have hnp : t.nls_pert.length ≠ 0 := fun hz => h9 ⟨hnlne, hz⟩
      generalize hc : (adapt_new_nonlinear t ics).length = c at *
      generalize hn : t.nls_pert.length = np at *
      have hsplit : c * np = c * (np - 1) + c := by
        have hnp1 : np - 1 + 1 = np := by omega
        calc c * np = c * (np - 1 + 1) := by rw [hnp1]
          _ = c * (np - 1) + c := by rw [Nat.mul_add, Nat.mul_one]
      omega

/-- Adapted variant of example table B (log-pressure cache set, with lg
the identity). -/
def exampleTableB' : GasAbsLookup :=
  { exampleTableB with log_p_grid := exampleTableB.p_grid }

/-- Adapting example table B to its own full species and frequency set
reproduces it (with the log-pressure cache initialised). -/
theorem exampleTableB_adapt :
    Adapt id exampleTableB [0, 1] [100, 200] = .ok exampleTableB' := by
  norm_num [Adapt, adapt_core, adapt_build, adapt_non_linear,
    adapt_current_non_linear, adapt_new_nonlinear, adapt_page_idx,
    lookup_species, chk_contains, find_new_grid_in_old_grid, find_go, scanFrom,
    is_increasing, is_decreasing, chk_xsec_size, tensor4_size, spec_pos_in_xsec,
    spec_sizes, xsec_offsets, exampleTableB, exampleTableB', abs_le, le_abs,
    List.range_succ, List.range_zero, Function.comp, Int.toNat_ofNat]
  simp [List.range', show Int.toNat 4 = 4 from rfl]

/-- Application of claim C2's theorem to the adapted example table B. -/
theorem C2_adapted_shape_witness :
    exampleTableB'.xsec.length = max exampleTableB'.t_pert.length 1 ∧
    ∀ bk ∈ exampleTableB'.xsec, bk.length =
      exampleTableB'.species.length + exampleTableB'.nonlinear_species.length *
        (exampleTableB'.nls_pert.length - 1) :=
  C2_adapted_shape id exampleTableB exampleTableB' [0, 1] [100, 200]
    (Or.inr (by decide)) exampleTableB_adapt

/-- The slice offsets are strictly increasing whenever every slice size
is at least 1. -/
theorem xsec_offsets_chain : ∀ (sizes : List Nat), (∀ s ∈ sizes, 1 ≤ s) →
    List.Chain' (fun a b => a < b) (xsec_offsets sizes) := by
  intro sizes
  induction sizes with
  | nil => intro _; simp [xsec_offsets]
  | cons n rest ih =>
    intro h
    rcases rest with _ | ⟨m, r⟩
    · simp [xsec_offsets]
    · have hch := ih (fun s hs => h s (List.mem_cons_of_mem _ hs))
      rw [xsec_offsets]
      refine List.chain'_cons'.mpr ⟨?_, ?_⟩
      · intro b hb
        rw [xsec_offsets] at hb
        simp only [List.map_cons, List.head?_cons, Option.mem_def,
          Option.some.injEq] at hb
        have := h n (List.mem_cons_self _ _)
        omega
      · rw [List.chain'_map]
        exact hch.imp (fun a b hab => by omega)

/-- If the original table has no nonlinear species, no requested species
is classified nonlinear. -/
theorem adapt_new_nonlinear_nil (t : GasAbsLookup) (ics : List Nat)
    (h : t.nonlinear_species = []) : adapt_new_nonlinear t ics = [] := by
  rw [adapt_new_nonlinear]
  apply List.filter_eq_nil_iff.mpr
  intro i _
  have hall : ∀ b ∈ adapt_current_non_linear t ics, b = false := by
    intro b hb
    simp only [adapt_current_non_linear, List.mem_map] at hb
    obtain ⟨k, _, hb⟩ := hb
    rw [← hb]
    apply getD_false_of_all_false
    intro b' hb'
    simp only [adapt_non_linear, List.mem_map] at hb'
    obtain ⟨i', _, hb'⟩ := hb'
    rw [← hb']
    simp [h]
  rw [getD_false_of_all_false hall]
  simp

/-- Claim C10: the nonlinear-species list of an adapted table is strictly
increasing, in range, and holds exactly the positions of the requested
species that are nonlinear in the original table; the per-species slice
offsets computed by the in-order scan over the new table are strictly
monotone. -/
theorem C10_nonlinear_monotone :
    ∀ (lg : ℚ → ℚ) (t t' : GasAbsLookup) (S : List Nat) (F : List ℚ),
      Adapt lg t S F = .ok t' →
      List.Chain' (fun a b => a < b) t'.nonlinear_species ∧
      (∀ i ∈ t'.nonlinear_species, i < t'.species.length) ∧
      (∀ i, i < t'.species.length →
        (i ∈ t'.nonlinear_species ↔
          t.nonlinear_species.contains (t.species.indexOf (S.getD i 0)) = true)) ∧
      List.Chain' (fun a b => a < b)
        (spec_pos_in_xsec ((List.range t'.species.length).map
          (fun i => t'.nonlinear_species.contains i)) t'.nls_pert.length) := by
  intro lg t t' S F h
  have hpre := Adapt_ok_pre lg t S F t' h
  obtain ⟨_, _, _, _, _, _, _, _, h9, _, _, _⟩ := hpre
  obtain ⟨ics, ifg, hls, hfs, ht'⟩ := Adapt_ok_inv lg t S F t' h
  obtain ⟨hics, hcnt⟩ := lookup_species_ok t.species S ics hls
  subst ht'
  have hlen : ics.length = S.length := by rw [hics]; simp
  have hflag : ∀ i, i < ics.length →
      ((adapt_current_non_linear t ics).getD i false =
        t.nonlinear_species.contains (t.species.indexOf (S.getD i 0))) := by
    intro i hi
    rw [adapt_current_non_linear,
      List.getD_eq_getElem _ _ (by simpa using hi), List.getElem_map]
    have hsome : ics[i] = t.species.indexOf (S.getD i 0) := by
      subst hics
      rw [List.getElem_map, List.getD_eq_getElem _ _ (by omega)]
    rw [hsome]
    have hmem : S.getD i 0 ∈ t.species := by
      apply List.count_pos_iff.mp
      rw [hcnt (S.getD i 0) (by rw [List.getD_eq_getElem _ _ (by omega)]; exact List.getElem_mem _)]
      omega
    have hk : t.species.indexOf (S.getD i 0) < t.species.length :=
      List.indexOf_lt_length.mpr hmem
    rw [adapt_non_linear, getD_map_range _ _ _ hk]
  refine ⟨?_, ?_, ?_, ?_⟩
  · rw [adapt_build]
    rw [adapt_new_nonlinear, List.chain'_iff_pairwise]
    exact (List.pairwise_lt_range _).filter _
  · intro i hi
    simp only [adapt_build, adapt_new_nonlinear, List.mem_filter,
      List.mem_range, List.length_map] at hi ⊢
    exact hi.1
  · intro i hi
    simp only [adapt_build, List.length_map] at hi
    simp only [adapt_build, adapt_new_nonlinear, List.mem_filter, List.mem_range]
    rw [hflag i hi]
    simp [hi]
  · apply xsec_offsets_chain
    intro s hs
    simp only [spec_sizes, List.mem_map] at hs
    obtain ⟨b, hb, hsz⟩ := hs
    by_cases hbv : b = true
    · subst hbv
      rw [if_pos rfl] at hsz
      simp only [adapt_build, List.mem_map] at hb
      obtain ⟨i, _, hbi⟩ := hb
      have hne : adapt_new_nonlinear t ics ≠ [] := by
        intro hnil
        rw [hnil] at hbi
        simp at hbi
      have hnls : ¬ t.nonlinear_species.length = 0 := by
        intro hz
        exact hne (adapt_new_nonlinear_nil t ics (List.length_eq_zero.mp hz))
      have hnp : t.nls_pert.length ≠ 0 := fun hz => h9 ⟨hnls, hz⟩
      have hcond : (adapt_new_nonlinear t ics).length ≠ 0 := by
        intro hz
        exact hne (List.length_eq_zero.mp hz)
      simp only [adapt_build] at hsz
      rw [if_pos hcond] at hsz
      omega
    · have : b = false := by simpa using hbv
      subst this
      rw [if_neg (by simp)] at hsz
      omega

/-- Application of claim C10's theorem to the adapted example table B. -/
theorem C10_nonlinear_monotone_witness :
    List.Chain' (fun a b => a < b) exampleTableB'.nonlinear_species ∧
    List.Chain' (fun a b => a < b)
      (spec_pos_in_xsec ((List.range exampleTableB'.species.length).map
        (fun i => exampleTableB'.nonlinear_species.contains i))
        exampleTableB'.nls_pert.length) := by
  have h := C10_nonlinear_monotone id exampleTableB exampleTableB' [0, 1] [100, 200]
    exampleTableB_adapt
  exact ⟨h.1, h.2.2.2⟩

theorem interpweights_single (g : List ℚ) (x : ℚ) (i : Nat) :
    interpweights g x [i] = [1] := by
  simp [interpweights, lagrangeWeight]

/-- For any strictly monotone stand-in for the logarithm, the nearest
log-pressure grid point to log 500 on the grid [1000, 500, 100] is the
middle one. -/
theorem nearestIdx_mid (lg : ℚ → ℚ) (h1 : lg 100 < lg 500) (h2 : lg 500 < lg 1000) :
    nearestIdx [lg 1000, lg 500, lg 100] (lg 500) = 1 := by
  have e0 : |lg 500 - lg 1000| = lg 1000 - lg 500 := by
    rw [abs_sub_comm]
    exact abs_of_pos (by linarith)
  have e1 : |lg 500 - lg 500| = 0 := by simp
  have e2 : |lg 500 - lg 100| = lg 500 - lg 100 := abs_of_pos (by linarith)
  rw [nearestIdx]
  rw [show ([lg 1000, lg 500, lg 100] : List ℚ).length = 3 from rfl,
    show List.range 3 = [0, 1, 2] from rfl]
  simp only [List.foldl_cons, List.foldl_nil]
  rw [ite_self]
  simp only [List.getD_cons_zero, List.getD_cons_succ]
  rw [show (if |lg 500 - lg 500| < |lg 500 - lg 1000| then 1 else 0) = 1 from
    if_pos (by rw [e1, e0]; linarith)]
  simp only [List.getD_cons_zero, List.getD_cons_succ]
  rw [if_neg (by rw [e2, e1]; intro hc; linarith)]

theorem gridpos_poly_order0 (g : List ℚ) (x : ℚ) (i : Nat)
    (h : nearestIdx g x = i) (hi : i + 1 ≤ g.length) :
    gridpos_poly g x 0 = [i] := by
  rw [gridpos_poly, h, min_eq_left (by omega)]
  rfl

/-- Claim C1: on a three-pressure table [1000, 500, 100] Pa with one
species, no temperature or humidity axes and per-frequency coefficients
(v0, v1, v2), Extract with pressure interpolation order 0 at p = 500 Pa
and any temperature T > 0 returns, for every selected frequency, exactly
v1 * numberDensity(500, T) * vmr[0], the number density following the
ideal-gas p/T relation. -/
theorem C1_order0_node_extraction :
    ∀ (lg : ℚ → ℚ), StrictMono lg →
    ∀ (coeffs : List (ℚ × ℚ × ℚ)) (fg vr tr : List ℚ) (T vmr0 : ℚ),
      0 < T → fg.length = coeffs.length →
      Extract lg
        { species := [1], nonlinear_species := [], f_grid := fg,
          p_grid := [1000, 500, 100], vmrs_ref := [vr], t_ref := tr,
          t_pert := [], nls_pert := [],
          xsec := [[coeffs.map (fun v => [v.1, v.2.1, v.2.2])]],
          log_p_grid := [lg 1000, lg 500, lg 100] }
        0 0 0 (-1) 500 T [vmr0]
      = .ok (coeffs.map (fun v => [v.2.1 * (number_density 500 T * vmr0)])) := by
  intro lg hmono coeffs fg vr tr T vmr0 hT hfg
  have hlg1 : lg 100 < lg 500 := hmono (by norm_num)
  have hlg2 : lg 500 < lg 1000 := hmono (by norm_num)
  have hpgp : gridpos_poly [lg 1000, lg 500, lg 100] (lg 500) 0 = [1] :=
    gridpos_poly_order0 _ _ 1 (nearestIdx_mid lg hlg1 hlg2) (by simp)
  simp only [Extract]
  rw [if_neg (by simp), if_neg (by norm_num), if_neg (by norm_num [p_order_ok]),
    if_neg (by norm_num [pert_order_ok]), if_neg (by norm_num [pert_order_ok]),
    if_neg (by norm_num), if_neg (by norm_num),
    if_neg (by norm_num [pressure_range_ok])]
  rw [show first_level_error
      { species := [1], nonlinear_species := [], f_grid := fg,
        p_grid := [1000, 500, 100], vmrs_ref := [vr], t_ref := tr,
        t_pert := [], nls_pert := [],
        xsec := [[coeffs.map (fun v => [v.1, v.2.1, v.2.2])]],
        log_p_grid := [lg 1000, lg 500, lg 100] }
      (find_first_species_tg [1] H2O) T [vmr0]
      (gridpos_poly [lg 1000, lg 500, lg 100] (lg 500) 0) 0
    = none by
      rw [hpgp]
      simp [first_level_error, level_error]]
  simp only [extract_result, hpgp, interpweights_single]
  rw [show List.range 1 = [0] from rfl]
  simp only [List.map_cons, List.map_nil, List.getD_cons_zero, List.getD_cons_succ,
    List.sum_cons, List.sum_nil]
  norm_num [interp_res, x4, spec_pos_in_xsec, spec_sizes, xsec_offsets]
  apply List.ext_getElem
  · simp [hfg]
  · intro i h1i h2i
    simp only [List.getElem_map, List.getElem_range]
    have hic : i < coeffs.length := by simpa using h2i
    have hif : i < fg.length := by omega
    rw [show List.range 1 = [0] from rfl]
    simp only [List.map_cons, List.map_nil, List.cons.injEq, and_true]
    rw [List.getElem?_range hif]
    simp only [Option.map_some', Option.getD_some, List.getElem?_cons_zero]
    rw [List.getElem?_eq_getElem hic]
    simp only [Option.map_some', Option.getD_some, List.getElem?_cons_succ,
      List.getElem?_cons_zero]

/-- Application of claim C1's theorem: a one-species one-frequency table
with coefficients (1, 2, 3), lg instantiated to the identity (strictly
monotone, the only property of log the theorem uses). -/
theorem C1_order0_node_extraction_witness :
    Extract id
      { species := [1], nonlinear_species := [], f_grid := [50],
        p_grid := [1000, 500, 100], vmrs_ref := [[]], t_ref := [],
        t_pert := [], nls_pert := [],
        xsec := [[[[1, 2, 3]]]], log_p_grid := [1000, 500, 100] }
      0 0 0 (-1) 500 300 [1/100]
    = .ok [[2 * (number_density 500 300 * (1/100))]] :=
  C1_order0_node_extraction id strictMono_id [(1, 2, 3)] [50] [] [] 300 (1/100)
    (by norm_num) rfl

/-- Table for the claim C8 counterexample: a single species. -/
def exampleTableC8 : GasAbsLookup :=
  { species := [5], nonlinear_species := [], f_grid := [100], p_grid := [1000],
    vmrs_ref := [[1/1000]], t_ref := [250], t_pert := [], nls_pert := [],
    xsec := [[[[2]]]] }

/-- Counterexample to claim C8 as stated: with the duplicated species
request [5, 5], the first Adapt succeeds (producing a table whose species
list is [5, 5]), but re-adapting that table with the same request fails,
because species 5 now occurs twice instead of exactly once; so
Adapt(Adapt(T,S,F),S,F) is not structurally identical to Adapt(T,S,F). -/
theorem C8_idempotence_counterexample :
    (Adapt id exampleTableC8 [5, 5] [100]).isOk = true ∧
    (match Adapt id exampleTableC8 [5, 5] [100] with
     | .ok t' => Adapt id t' [5, 5] [100]
     | .error e => (.error e : Except Err GasAbsLookup)) = .error .SpeciesNotUnique := by
  have h : Adapt id exampleTableC8 [5, 5] [100] =
      .ok { species := [5, 5], nonlinear_species := [], f_grid := [100],
            p_grid := [1000], vmrs_ref := [[1/1000], [1/1000]], t_ref := [250],
            t_pert := [], nls_pert := [], xsec := [[[[2]], [[2]]]],
            log_p_grid := [1000] } := by
    norm_num [Adapt, adapt_core, adapt_build, adapt_non_linear,
      adapt_current_non_linear, adapt_new_nonlinear, adapt_page_idx,
      lookup_species, chk_contains, find_new_grid_in_old_grid, find_go, scanFrom,
      is_increasing, is_decreasing, chk_xsec_size, tensor4_size, spec_pos_in_xsec,
      spec_sizes, xsec_offsets, exampleTableC8, abs_le, le_abs,
      List.range_succ, List.range_zero, Function.comp]
  rw [h]
  refine ⟨rfl, ?_⟩
  norm_num [Adapt, adapt_core, lookup_species, chk_contains,
    is_increasing, is_decreasing, chk_xsec_size, tensor4_size, abs_le, le_abs]

/-- Reading back every position of a list reproduces the list. -/
theorem map_getD_range_eq {α : Type} (l : List α) (d : α) :
    (List.range l.length).map (fun k => l.getD k d) = l := by
  apply List.ext_getElem
  · simp
  · intro i h1 h2
    simp only [List.getElem_map, List.getElem_range]
    exact List.getD_eq_getElem _ _ h2

/-- The species list of an adapted table is the request itself. -/
theorem adapt_build_species_eq (lg : ℚ → ℚ) (t : GasAbsLookup) (S ics ifg : List Nat)
    (h : lookup_species t.species S = .ok ics) :
    (adapt_build lg t ics ifg).species = S := by
  obtain ⟨hics, hcnt⟩ := lookup_species_ok t.species S ics h
  subst hics
  rw [adapt_build]
  rw [List.map_map]
  apply List.ext_getElem
  · simp
  · intro i h1 h2
    simp only [List.getElem_map, Function.comp]
    have hmem : S[i] ∈ t.species := by
      apply List.count_pos_iff.mp
      rw [hcnt S[i] (List.getElem_mem h2)]
      omega
    have hlt : t.species.indexOf S[i] < t.species.length :=
      List.indexOf_lt_length.mpr hmem
    rw [List.getD_eq_getElem _ _ hlt]
    exact List.getElem_indexOf hlt

/-- Looking the species list up in itself yields the identity positions
when every species occurs exactly once. -/
theorem lookup_self_eq_range (S ics : List Nat)
    (h : lookup_species S S = .ok ics) : ics = List.range S.length := by
  obtain ⟨hics, hcnt⟩ := lookup_species_ok S S ics h
  have hnd : S.Nodup := List.nodup_iff_count_le_one.mpr (fun a => by
    by_cases ha : a ∈ S
    · rw [hcnt a ha]
    · rw [List.count_eq_zero.mpr ha]
      omega)
  subst hics
  apply List.ext_getElem
  · simp
  · intro i h1 h2
    simp only [List.getElem_map, List.getElem_range]
    exact List.indexOf_getElem hnd i (by simpa using h1)

/-- Full success description of the locator loop: each position carries
its tolerance bound, and every old-grid position from the scan cursor up
to (excluding) the match is farther away than the tolerance. -/
theorem find_go_first (old : List ℚ) : ∀ (new : List ℚ) (j : Nat) (pos : List Nat),
    find_go old j new = .ok pos →
    pos.length = new.length ∧
    ∀ i, (hi : i < pos.length) →
      |new.getD i 0 - old.getD pos[i] 0| ≤ 1 ∧ pos[i] < old.length ∧
      (if i = 0 then j else pos.getD (i - 1) 0) ≤ pos[i] ∧
      ∀ j', (if i = 0 then j else pos.getD (i - 1) 0) ≤ j' → j' < pos[i] →
        1 < |new.getD i 0 - old.getD j' 0| := by
  intro new
  induction new with
  | nil =>
    intro j pos h
    rw [find_go] at h
    cases h
    exact ⟨rfl, by intro i hi; simp at hi⟩
  | cons x rest ih =>
    intro j pos h
    rw [find_go] at h
    cases hscan : scanFrom x j (old.drop j) with
    | error e => simp [hscan] at h
    | ok k =>
      simp only [hscan] at h
      cases hrest : find_go old k rest with
      | error e => simp [hrest] at h
      | ok ks =>
        simp only [hrest, Except.ok.injEq] at h
        subst h
        obtain ⟨m, hk, hm, htol, hskip⟩ := scanFrom_ok x _ _ _ hscan
        have hdl : (old.drop j).length = old.length - j := by simp
        have hkb : k < old.length := by omega
        have hval : ∀ m', m' < (old.drop j).length →
            (old.drop j).getD m' 0 = old.getD (j + m') 0 := by
          intro m' hm'
          rw [List.getD_eq_getElem _ _ hm',
            List.getD_eq_getElem _ _ (by omega : j + m' < old.length)]
          rw [List.getElem_drop]
        obtain ⟨hlen, hprop⟩ := ih k ks hrest
        refine ⟨by simpa using hlen, ?_⟩
        intro i hi
        match i with
        | 0 =>
          have hx : (old.drop j).getD m 0 = old.getD k 0 := by
            rw [hval m hm, hk]
          refine ⟨?_, by simpa using hkb, ?_, ?_⟩
          · simp only [List.getD_cons_zero, List.getElem_cons_zero]
            rw [← hx]
            exact htol
          · simp
            omega
          · intro j' hj1 hj2
            simp at hj1
            simp at hj2
            have hj'm : j' - j < m := by omega
            have hs := hskip (j' - j) hj'm
            rw [hval (j' - j) (by omega)] at hs
            have hjj : j + (j' - j) = j' := by omega
            rw [hjj] at hs
            simpa using hs
        | i' + 1 =>
          obtain ⟨h1, h2, h3, h4⟩ := hprop i' (by simpa using hi)
          have hbase : (k :: ks).getD (i' + 1 - 1) 0 =
              (if i' = 0 then k else ks.getD (i' - 1) 0) := by
            rcases Nat.eq_zero_or_pos i' with hz | hpos
            · subst hz
              simp
            · rw [if_neg (by omega)]
              rw [show i' + 1 - 1 = (i' - 1) + 1 from by omega]
              simp [List.getD_cons_succ]
          refine ⟨by simpa using h1, by simpa using h2, ?_, ?_⟩
          · rw [if_neg (by omega : ¬ (i' + 1 = 0)), hbase]
            simpa using h3
          · intro j' hj1 hj2
            rw [if_neg (by omega : ¬ (i' + 1 = 0)), hbase] at hj1
            simp only [List.getElem_cons_succ] at hj2
            have := h4 j' hj1 hj2
            simpa using this

/-- Rescanning a grid that already matches the new grid pointwise (and
whose predecessors are out of tolerance) returns the identity positions. -/
theorem find_go_rescan (g F : List ℚ) (hlen : g.length = F.length)
    (htol : ∀ i, i < F.length → |F.getD i 0 - g.getD i 0| ≤ 1)
    (hskip : ∀ i, i + 1 < F.length → 1 < |F.getD (i + 1) 0 - g.getD i 0|) :
    ∀ n i, i ≤ F.length → F.length - i = n →
      find_go g (i - 1) (F.drop i) = .ok (List.range' i n) := by
  intro n
  induction n with
  | zero =>
    intro i hi hn
    have hieq : i = F.length := by omega
    subst hieq
    rw [List.drop_length, find_go]
    rfl
  | succ n ih =>
    intro i hi hn
    have hiF : i < F.length := by omega
    have hig : i < g.length := by omega
    have ht := htol i hiF
    rw [List.getD_eq_getElem _ _ hiF, List.getD_eq_getElem _ _ hig] at ht
    rw [List.drop_eq_getElem_cons hiF, find_go]
    have hscan : scanFrom F[i] (i - 1) (g.drop (i - 1)) = .ok i := by
      rcases Nat.eq_zero_or_pos i with hz | hpos
      · subst hz
        rw [Nat.zero_sub, List.drop_eq_getElem_cons (show 0 < g.length by omega),
          scanFrom, if_pos (by simpa using ht)]
      · have hi1 : i - 1 < g.length := by omega
        have hsk := hskip (i - 1) (by omega)
        rw [show i - 1 + 1 = i from by omega] at hsk
        rw [List.getD_eq_getElem _ _ hiF, List.getD_eq_getElem _ _ hi1] at hsk
        rw [List.drop_eq_getElem_cons hi1, scanFrom, if_neg (by
          intro hc
          exact absurd hc (not_le.mpr hsk))]
        rw [show i - 1 + 1 = i from by omega, List.drop_eq_getElem_cons hig,
          scanFrom, if_pos ht]
    simp only [hscan]
    have hih := ih (i + 1) (by omega) (by omega)
    rw [show i + 1 - 1 = i from rfl] at hih
    rw [hih]
    rfl

theorem xsec_offsets_length : ∀ (sizes : List Nat),
    (xsec_offsets sizes).length = sizes.length := by
  intro sizes
  induction sizes with
  | nil => rfl
  | cons n rest ih => simp [xsec_offsets, ih]

/-- Consecutive blocks of the stated sizes, starting at the running-sum
offsets, tile the full index range. -/
theorem flatten_offsets : ∀ (sizes : List Nat),
    (((List.range sizes.length).map (fun i =>
      List.range' ((xsec_offsets sizes).getD i 0) (sizes.getD i 0))).flatten)
      = List.range sizes.sum := by
  intro sizes
  induction sizes with
  | nil => simp
  | cons sz rest ih =>
    rw [show (sz :: rest).length = rest.length + 1 from rfl, List.range_succ_eq_map]
    rw [List.map_cons, List.map_map]
    have hblocks : (List.range rest.length).map
        ((fun i => List.range' ((xsec_offsets (sz :: rest)).getD i 0)
          ((sz :: rest).getD i 0)) ∘ Nat.succ)
        = (List.range rest.length).map (fun i =>
          (List.range' ((xsec_offsets rest).getD i 0) (rest.getD i 0)).map
            (fun x => sz + x)) := by
      apply List.map_congr_left
      intro i hi
      simp only [Function.comp, List.mem_range] at hi ⊢
      rw [show (sz :: rest).getD (i + 1) 0 = rest.getD i 0 from rfl]
      rw [show (xsec_offsets (sz :: rest)).getD (i + 1) 0
          = ((xsec_offsets rest).map (fun m => m + sz)).getD (i + 1 - 1) 0 from rfl]
      rw [show i + 1 - 1 = i from rfl]
      rw [List.getD_eq_getElem _ _ (by rw [List.length_map, xsec_offsets_length]; omega),
        List.getElem_map,
        ← List.getD_eq_getElem (xsec_offsets rest) 0 (by rw [xsec_offsets_length]; omega)]
      rw [List.map_add_range']
      congr 1
      omega
    rw [hblocks]
    rw [List.flatten_cons]
    rw [show ((List.range rest.length).map (fun i =>
        (List.range' ((xsec_offsets rest).getD i 0) (rest.getD i 0)).map
          (fun x => sz + x))) = ((List.range rest.length).map (fun i =>
        List.range' ((xsec_offsets rest).getD i 0) (rest.getD i 0))).map
          (List.map (fun x => sz + x)) from by rw [List.map_map]; rfl]
    rw [← List.map_flatten, ih]
    rw [show (sz :: rest).getD 0 0 = sz from rfl,
      show (xsec_offsets (sz :: rest)).getD 0 0 = 0 from rfl]
    rw [show (sz :: rest).sum = sz + rest.sum from rfl, List.range_add]
    congr 1
    rw [List.range_eq_range']

/-- Filtering the index range by membership in a filtered index range
gives that filtered list back. -/
theorem filter_contains_self (p : Nat → Bool) (n : Nat) :
    (List.range n).filter (fun i => ((List.range n).filter p).contains i)
      = (List.range n).filter p := by
  apply List.filter_congr
  intro i hi
  have hc : (((List.range n).filter p).contains i)
      = decide (i ∈ (List.range n).filter p) := List.elem_eq_mem i _
  rw [hc]
  by_cases hp : p i = true
  · simp [List.mem_filter, hi, hp]
  · simp [List.mem_filter, hp]

attribute [ext] GasAbsLookup

theorem getD_map {A B : Type} (f : A → B) (l : List A) (i : Nat) (hi : i < l.length)
    (d : B) (d' : A) : (l.map f).getD i d = f (l.getD i d') := by
  rw [List.getD_eq_getElem _ _ (by simpa using hi), List.getElem_map,
    List.getD_eq_getElem _ _ hi]

/-- On the identity species request, the copied page blocks tile the
whole expanded-species axis in order. -/
theorem adapt_page_idx_range (t' : GasAbsLookup) :
    adapt_page_idx t' (List.range t'.species.length)
      = List.range ((spec_sizes (adapt_non_linear t') t'.nls_pert.length).sum) := by
  have hfl : (adapt_non_linear t').length = t'.species.length := by
    simp [adapt_non_linear]
  have hsl : (spec_sizes (adapt_non_linear t') t'.nls_pert.length).length
      = t'.species.length := by
    simp [spec_sizes, hfl]
  rw [adapt_page_idx]
  have key : (List.range (List.range t'.species.length).length).map (fun i =>
      List.range' ((spec_pos_in_xsec (adapt_non_linear t') t'.nls_pert.length).getD
          ((List.range t'.species.length).getD i 0) 0)
        (if (adapt_current_non_linear t' (List.range t'.species.length)).getD i false
         then t'.nls_pert.length else 1))
      = (List.range (spec_sizes (adapt_non_linear t') t'.nls_pert.length).length).map
        (fun i => List.range' ((xsec_offsets (spec_sizes (adapt_non_linear t')
            t'.nls_pert.length)).getD i 0)
          ((spec_sizes (adapt_non_linear t') t'.nls_pert.length).getD i 0)) := by
    rw [show (List.range t'.species.length).length = t'.species.length from by simp,
      hsl]
    apply List.map_congr_left
    intro i hi
    rw [List.mem_range] at hi
    have hr : (List.range t'.species.length).getD i 0 = i := by
      rw [List.getD_eq_getElem _ _ (by simpa using hi), List.getElem_range]
    have hoff : (spec_pos_in_xsec (adapt_non_linear t') t'.nls_pert.length).getD
        ((List.range t'.species.length).getD i 0) 0
        = (xsec_offsets (spec_sizes (adapt_non_linear t') t'.nls_pert.length)).getD i 0 := by
      rw [hr, spec_pos_in_xsec]
    have hsz : (if (adapt_current_non_linear t' (List.range t'.species.length)).getD
          i false then t'.nls_pert.length else 1)
        = (spec_sizes (adapt_non_linear t') t'.nls_pert.length).getD i 0 := by
      rw [adapt_current_non_linear, getD_map_range _ _ _ hi]
      rw [spec_sizes, getD_map _ _ _ (by omega) _ false]
    rw [hoff, hsz]
  rw [key, flatten_offsets]

/-- Rebuilding a table from itself, with the identity species and
frequency selections, reproduces it: the heart of re-adapt idempotence. -/
theorem adapt_build_id (lg : ℚ → ℚ) (t' : GasAbsLookup)
    (hvm : t'.vmrs_ref.length = t'.species.length)
    (hnlself : t'.nonlinear_species
      = (List.range t'.species.length).filter (fun i => t'.nonlinear_species.contains i))
    (hnp : t'.nonlinear_species = [] → t'.nls_pert = [])
    (hlog : t'.log_p_grid = t'.p_grid.map lg)
    (hbk : ∀ bk ∈ t'.xsec,
      bk.length = (spec_sizes (adapt_non_linear t') t'.nls_pert.length).sum ∧
      ∀ pg ∈ bk, pg.length = t'.f_grid.length) :
    adapt_build lg t' (List.range t'.species.length) (List.range t'.f_grid.length)
      = t' := by
  have hannl : adapt_new_nonlinear t' (List.range t'.species.length)
      = t'.nonlinear_species := by
    rw [adapt_new_nonlinear]
    rw [show (List.range t'.species.length).length = t'.species.length from by simp]
    have hpt : ∀ i ∈ List.range t'.species.length,
        ((adapt_current_non_linear t' (List.range t'.species.length)).getD i false)
          = t'.nonlinear_species.contains i := by
      intro i hi
      rw [List.mem_range] at hi
      rw [adapt_current_non_linear, getD_map_range _ _ _ hi,
        adapt_non_linear, getD_map_range _ _ _ hi]
    rw [List.filter_congr hpt]
    exact hnlself.symm
  have hxsec : t'.xsec.map (fun book =>
      (adapt_page_idx t' (List.range t'.species.length)).map (fun pidx =>
        (List.range t'.f_grid.length).map (fun fi =>
          (book.getD pidx []).getD fi []))) = t'.xsec := by
    rw [adapt_page_idx_range]
    have hone : ∀ book ∈ t'.xsec,
        (List.range ((spec_sizes (adapt_non_linear t') t'.nls_pert.length).sum)).map
          (fun pidx => (List.range t'.f_grid.length).map (fun fi =>
            (book.getD pidx []).getD fi [])) = book := by
      intro book hb
      obtain ⟨hbl, hpl⟩ := hbk book hb
      rw [← hbl]
      apply List.ext_getElem
      · simp
      · intro pidx h1 h2
        simp only [List.getElem_map, List.getElem_range]
        rw [List.getD_eq_getElem _ _ h2]
        rw [show t'.f_grid.length = book[pidx].length from
          (hpl book[pidx] (List.getElem_mem h2)).symm]
        exact map_getD_range_eq book[pidx] []
    rw [List.map_congr_left hone]
    exact List.map_id' t'.xsec
  ext : 1
  · rw [adapt_build]
    exact map_getD_range_eq t'.species 0
  · rw [adapt_build]
    exact hannl
  · rw [adapt_build]
    exact map_getD_range_eq t'.f_grid 0
  · rw [adapt_build]
  · rw [adapt_build]
    rw [← hvm]
    exact map_getD_range_eq t'.vmrs_ref []
  · rw [adapt_build]
  · rw [adapt_build]
  · rw [adapt_build]
    rw [hannl]
    by_cases hz : t'.nonlinear_species = []
    · rw [if_neg (by simp [hz]), hnp hz]
    · rw [if_pos (by simpa using fun hh => hz (List.length_eq_zero.mp hh))]
  · rw [adapt_build]
    exact hxsec
  · rw [adapt_build]
    exact hlog.symm

/-- Entries of a strictly increasing grid, read through getD, are
strictly ordered. -/
theorem increasing_getD_lt {l : List ℚ} (h : is_increasing l = true) {i j : Nat}
    (hj : j < l.length) (hij : i < j) : l.getD i 0 < l.getD j 0 := by
  have hc : List.Chain' (fun a b => a < b) l := of_decide_eq_true h
  have hp : l.Pairwise (fun a b => a < b) := List.chain'_iff_pairwise.mp hc
  have hi : i < l.length := lt_trans hij hj
  rw [List.getD_eq_getElem _ _ hi, List.getD_eq_getElem _ _ hj]
  exact List.pairwise_iff_getElem.mp hp i j hi hj hij

/-- Entries of a strictly increasing grid, read through getD, are
monotone. -/
theorem increasing_getD_le {l : List ℚ} (h : is_increasing l = true) {i j : Nat}
    (hj : j < l.length) (hij : i ≤ j) : l.getD i 0 ≤ l.getD j 0 := by
  rcases Nat.lt_or_ge j (i + 1) with hge | hlt
  · have : i = j := by omega
    subst this
    exact le_refl _
  · exact le_of_lt (increasing_getD_lt h hj (by omega))

/-- A table that passes the xsec shape check, whose nonlinear list is the
filtered index range, and whose humidity-axis consistency check passed,
has books of exactly the expanded-species length and pages of the
frequency-grid length. -/
theorem chk_xsec_books (t' : GasAbsLookup)
    (hchk : chk_xsec_size t' = true)
    (hnlself : t'.nonlinear_species
      = (List.range t'.species.length).filter (fun i => t'.nonlinear_species.contains i))
    (h9 : ¬ (¬ t'.nonlinear_species.length = 0 ∧ t'.nls_pert.length = 0)) :
    ∀ bk ∈ t'.xsec,
      bk.length = (spec_sizes (adapt_non_linear t') t'.nls_pert.length).sum ∧
      ∀ pg ∈ bk, pg.length = t'.f_grid.length := by
  have hcnt : ((List.range t'.species.length).filter
      (fun i => t'.nonlinear_species.contains i)).length
      = t'.nonlinear_species.length := by rw [← hnlself]
  have hsum : (spec_sizes (adapt_non_linear t') t'.nls_pert.length).sum
      = (t'.species.length - t'.nonlinear_species.length)
        + t'.nonlinear_species.length * t'.nls_pert.length := by
    rw [spec_sizes, adapt_non_linear, List.map_map]
    rw [show ((fun b => if b = true then t'.nls_pert.length else 1) ∘
        fun i => t'.nonlinear_species.contains i) = fun i =>
        if t'.nonlinear_species.contains i then t'.nls_pert.length else 1 from rfl]
    rw [sum_sizes_formula, hcnt]
  have hlenle : t'.nonlinear_species.length ≤ t'.species.length := by
    rw [← hcnt]
    exact le_trans (List.length_filter_le _ _) (by simp)
  intro bk hbk
  rw [chk_xsec_size] at hchk
  by_cases hz : t'.nonlinear_species.length = 0
  · rw [if_pos hz] at hchk
    rw [hsum, hz]
    simp only [Nat.sub_zero, Nat.zero_mul, Nat.add_zero]
    by_cases ht : t'.t_pert.length = 0
    · rw [if_pos ht] at hchk
      obtain ⟨_, hdim⟩ := (tensor4_size_iff _ _ _ _ _).mp hchk
      obtain ⟨hb, hrest⟩ := hdim bk hbk
      exact ⟨hb, fun pg hpg => (hrest pg hpg).1⟩
    · rw [if_neg ht] at hchk
      obtain ⟨_, hdim⟩ := (tensor4_size_iff _ _ _ _ _).mp hchk
      obtain ⟨hb, hrest⟩ := hdim bk hbk
      exact ⟨hb, fun pg hpg => (hrest pg hpg).1⟩
  · rw [if_neg hz] at hchk
    have hnp : ¬ t'.nls_pert.length = 0 := fun hc => h9 ⟨hz, hc⟩
    obtain ⟨k, hk⟩ : ∃ k, t'.nls_pert.length = k + 1 := ⟨t'.nls_pert.length - 1, by omega⟩
    simp only [Bool.and_eq_true, decide_eq_true_eq] at hchk
    obtain ⟨hge, hsz⟩ := hchk
    have hbta : ((t'.species.length : Int) + (t'.nonlinear_species.length : Int)
        * ((t'.nls_pert.length : Int) - 1)).toNat
        = t'.species.length + t'.nonlinear_species.length * k := by
      rw [hk]
      rw [show ((t'.species.length : Int) + (t'.nonlinear_species.length : Int)
          * (((k + 1 : Nat) : Int) - 1))
          = ((t'.species.length + t'.nonlinear_species.length * k : Nat) : Int) from by
        push_cast; ring]
      exact Int.toNat_natCast _
    rw [hbta] at hsz
    obtain ⟨_, hdim⟩ := (tensor4_size_iff _ _ _ _ _).mp hsz
    obtain ⟨hb, hrest⟩ := hdim bk hbk
    refine ⟨?_, fun pg hpg => (hrest pg hpg).1⟩
    rw [hsum, hk, hb, Nat.mul_succ]
    generalize t'.nonlinear_species.length * k = m
    omega

/-- Claim C8 (amended): Adapt is not literally idempotent — a duplicated
species request makes the second Adapt fail (see the counterexample) —
but whenever re-adapting the adapted table with the same request
succeeds, it reproduces that table unchanged: the adapted table is a
fixed point of a successful re-Adapt. -/
theorem C8_adapt_idempotent (lg : ℚ → ℚ) (t t' t'' : GasAbsLookup)
    (S : List Nat) (F : List ℚ)
    (h1 : Adapt lg t S F = .ok t') (h2 : Adapt lg t' S F = .ok t'') :
    t'' = t' := by
  have hpre1 := Adapt_ok_pre lg t S F t' h1
  obtain ⟨ics, ifg, hls1, hfg1, ht'⟩ := Adapt_ok_inv lg t S F t' h1
  have hpre2 := Adapt_ok_pre lg t' S F t'' h2
  obtain ⟨ics2, ifg2, hls2, hfg2, ht''⟩ := Adapt_ok_inv lg t' S F t'' h2
  obtain ⟨q1, q2, q3, q4, q5, q6, q7, q8, q9, q10, q11, q12⟩ := hpre1
  obtain ⟨p1, p2, p3, p4, p5, p6, p7, p8, p9, p10, p11, p12⟩ := hpre2
  have hspecies : t'.species = S := by
    rw [ht']
    exact adapt_build_species_eq lg t S ics ifg hls1
  rw [hspecies] at hls2
  have hics2 : ics2 = List.range S.length := lookup_self_eq_range S ics2 hls2
  obtain ⟨hF, hfacts⟩ := find_go_first t.f_grid F 0 ifg hfg1
  have hfg_eq : t'.f_grid = ifg.map (fun k => t.f_grid.getD k 0) := by
    rw [ht']
    rfl
  have hgel : ∀ i, i < ifg.length →
      t'.f_grid.getD i 0 = t.f_grid.getD (ifg.getD i 0) 0 := by
    intro i hi
    rw [hfg_eq, getD_map _ _ _ hi _ 0]
  have hglenF : t'.f_grid.length = F.length := by
    rw [hfg_eq, List.length_map, hF]
  have hbound : ∀ i, (hi : i < ifg.length) → ifg.getD i 0 < t.f_grid.length := by
    intro i hi
    have h := (hfacts i hi).2.1
    rwa [List.getD_eq_getElem ifg 0 hi]
  have hpos_lt : ∀ i, i + 1 < ifg.length → ifg.getD i 0 < ifg.getD (i + 1) 0 := by
    intro i hi1
    have hi : i < ifg.length := by omega
    by_contra hnot
    push_neg at hnot
    have hle : t.f_grid.getD (ifg.getD (i + 1) 0) 0 ≤ t.f_grid.getD (ifg.getD i 0) 0 :=
      increasing_getD_le q4 (hbound i hi) hnot
    have hlt : t'.f_grid.getD i 0 < t'.f_grid.getD (i + 1) 0 :=
      increasing_getD_lt p4 (by rw [hfg_eq, List.length_map]; exact hi1) (by omega)
    rw [hgel i hi, hgel (i + 1) hi1] at hlt
    exact absurd hlt (not_lt.mpr hle)
  have htolF : ∀ i, i < F.length → |F.getD i 0 - t'.f_grid.getD i 0| ≤ 1 := by
    intro i hiF
    have hi : i < ifg.length := by omega
    rw [hgel i hi]
    have h := (hfacts i hi).1
    rwa [List.getD_eq_getElem ifg 0 hi]
  have hskipF : ∀ i, i + 1 < F.length →
      1 < |F.getD (i + 1) 0 - t'.f_grid.getD i 0| := by
    intro i hi1F
    have hi1 : i + 1 < ifg.length := by omega
    have hi : i < ifg.length := by omega
    rw [hgel i hi]
    have h4 := (hfacts (i + 1) hi1).2.2.2
    refine h4 (ifg.getD i 0) ?_ ?_
    · rw [if_neg (by omega : ¬ (i + 1 = 0))]
      exact Nat.le_refl _
    · rw [← List.getD_eq_getElem ifg 0 hi1]
      exact hpos_lt i hi1
  have hres := find_go_rescan t'.f_grid F hglenF htolF hskipF
    F.length 0 (Nat.zero_le _) (by omega)
  rw [List.drop_zero] at hres
  have hok2 : (Except.ok ifg2 : Except Err (List Nat))
      = .ok (List.range' 0 F.length) := by
    rw [← hfg2, find_new_grid_in_old_grid]
    exact hres
  have hifg2 : ifg2 = List.range F.length := by
    rw [List.range_eq_range']
    exact Except.ok.inj hok2
  have hnl' : t'.nonlinear_species = adapt_new_nonlinear t ics := by
    rw [ht']
    rfl
  have hslen : S.length = ics.length := by
    obtain ⟨hics_eq, _⟩ := lookup_species_ok t.species S ics hls1
    rw [hics_eq, List.length_map]
  have hnlself : t'.nonlinear_species = (List.range t'.species.length).filter
      (fun i => t'.nonlinear_species.contains i) := by
    rw [hnl', hspecies, hslen, adapt_new_nonlinear]
    exact (filter_contains_self _ ics.length).symm
  have hnp : t'.nonlinear_species = [] → t'.nls_pert = [] := by
    intro hznl
    rw [hnl'] at hznl
    have hpert : t'.nls_pert
        = if (adapt_new_nonlinear t ics).length ≠ 0 then t.nls_pert else [] := by
      rw [ht']
      rfl
    rw [hpert, hznl]
    simp
  have hlog : t'.log_p_grid = t'.p_grid.map lg := by
    rw [ht']
    rfl
  have hbk := chk_xsec_books t' p10 hnlself p9
  rw [ht'', hics2, hifg2, ← hspecies, ← hglenF]
  exact adapt_build_id lg t' p6.1 hnlself hnp hlog hbk

/-- Re-adapting the adapted example table B with the same request
succeeds and reproduces it. -/
theorem exampleTableB_readapt :
    Adapt id exampleTableB' [0, 1] [100, 200] = .ok exampleTableB' := by
  norm_num [Adapt, adapt_core, adapt_build, adapt_non_linear,
    adapt_current_non_linear, adapt_new_nonlinear, adapt_page_idx,
    lookup_species, chk_contains, find_new_grid_in_old_grid, find_go, scanFrom,
    is_increasing, is_decreasing, chk_xsec_size, tensor4_size, spec_pos_in_xsec,
    spec_sizes, xsec_offsets, exampleTableB, exampleTableB', abs_le, le_abs,
    List.range_succ, List.range_zero, Function.comp, Int.toNat_ofNat]
  simp [List.range', show Int.toNat 4 = 4 from rfl]

/-- Application of claim C8's theorem: example table B adapts to B', B'
re-adapts successfully, and the theorem forces the re-adapted table to
be B' itself. -/
theorem C8_adapt_idempotent_witness :
    Adapt id exampleTableB [0, 1] [100, 200] = .ok exampleTableB' ∧
    Adapt id exampleTableB' [0, 1] [100, 200] = .ok exampleTableB' ∧
    exampleTableB' = exampleTableB' :=
  ⟨exampleTableB_adapt, exampleTableB_readapt,
    C8_adapt_idempotent id exampleTableB exampleTableB' exampleTableB'
      [0, 1] [100, 200] exampleTableB_adapt exampleTableB_readapt⟩
